import Mathlib

/-!
Verification development for the Safar-e-GIKI WhatsApp bus-booking service.

The Python sources (database.py, session_manager.py, message_handler.py,
admin_handler.py, main.py) are shallowly embedded below:

* the Supabase tables `buses`, `available_dates`, `bookings` become lists of
  records inside a `DB` value; queries become list traversals;
* the in-memory session map of session_manager.py becomes a function
  `Phone → Option Session`; wall-clock time is threaded as an `Int` measured
  in minutes (the only comparison in the source is against a 30 minute
  `timedelta`);
* fallible external calls (row insert, the `decrement_seats` RPC) are given
  explicit success flags, and an exception that the Python code would let
  propagate is an `Except.error` result;
* outbound WhatsApp sends (whatsapp_client.py, an out-of-scope notifier
  collaborator) are modelled as emitted `Msg` values.  Static message bodies
  are reproduced verbatim; large dynamic presentation templates (trip and
  booking summaries, bus-status listings) are carried as structured-data
  constructors, since only *which* message is emitted matters here and the
  thousands-separator number formatting of Python is presentation only.
-/

/-! ## Data model: the backing store (database.py tables) -/

/-- A row of the `buses` table (the fields read by the embedded code). -/
structure Bus where
  id : String
  name : String
  price : Nat
  total_seats : Nat
  is_active : Bool
  departure_time : String
  arrival_time : String
deriving Repr, DecidableEq

/-- A row of the `available_dates` table: one trip (bus + date + route) with
its denormalized free-seat counter. -/
structure AvailableDate where
  id : String
  route : String
  date : String
  bus_id : String
  seats_available : Int
deriving Repr, DecidableEq

/-- A row of the `bookings` table. -/
structure Booking where
  booking_id : String
  bus_id : String
  date_id : String
  from_location : String
  to_location : String
  travel_date : String
  passenger_name : String
  passenger_phone : String
  passenger_cnic : String
  emergency_contact : String
  student_id : String
  selected_seats : List Nat
  total_amount : Nat
  payment_method : String
  payment_status : String
  booking_status : String
deriving Repr, DecidableEq

/-- The backing store: the three tables the embedded code touches. -/
structure DB where
  buses : List Bus
  dates : List AvailableDate
  bookings : List Booking
deriving Repr, DecidableEq

/-! ## database.py: reads -/

/-- `get_bus_by_id`: select from `buses` where `id` matches. -/
def get_bus_by_id (db : DB) (busId : String) : Option Bus :=
  db.buses.find? (fun b => b.id == busId)

/-- Row lookup underlying `get_date_info`: select from `available_dates`
where `id` matches (`.single()`). -/
def get_date_row (db : DB) (dateId : String) : Option AvailableDate :=
  db.dates.find? (fun d => d.id == dateId)

/-- `get_date_info`: the date row joined with its bus (`select "*, buses(*)"`);
`None` when the row is absent. -/
def get_date_info (db : DB) (dateId : String) : Option (AvailableDate × Bus) :=
  match get_date_row db dateId with
  | none => none
  | some d =>
    match get_bus_by_id db d.bus_id with
    | none => none
    | some b => some (d, b)

/-- The loop of `get_available_seats` that folds the `selected_seats` arrays
of all bookings on the date whose `booking_status` is not `cancelled` into
one set (`booked_seats.update(...)`). -/
def bookedSeats (db : DB) (dateId : String) : Finset ℕ :=
  (db.bookings.filter
      (fun b => b.date_id == dateId && b.booking_status != "cancelled")).foldl
    (fun acc b => acc ∪ b.selected_seats.toFinset) ∅

/-- `get_available_seats`: `sorted(set(range(1, total_seats + 1)) - booked_seats)`,
computed as the ascending enumeration of the set difference (filtering the
ascending `range(1, total_seats + 1)` by non-membership in the booked set is
exactly that sorted difference); `[]` when the date row is absent. -/
def get_available_seats (db : DB) (dateId : String) : List ℕ :=
  match get_date_info db dateId with
  | none => []
  | some (_, bus) =>
    (List.range' 1 bus.total_seats).filter
      (fun n => decide (n ∉ bookedSeats db dateId))

/-! ## database.py: booking creation -/

/-- `generate_booking_id`: `f"SFG-{uuid.uuid4().hex[:8].upper()}"`.  The
randomness of `uuid4` is threaded in as the 32-character lowercase-hex string
`uuidHex`; string slicing and upcasing act on the character list (the input
is ASCII hex). -/
def generate_booking_id (uuidHex : String) : String :=
  ⟨"SFG-".data ++ (uuidHex.data.take 8).map Char.toUpper⟩

/-- Modelled from the spec: the `decrement_seats` stored procedure lives in
the database, not in this repository; §4.4 describes it as an "atomic
counter adjustment" of the trip's `seats_available` by the argument `x`
(called with a negative `x` to restore seats).  The clamp/reject bound
checking §4.4 also asks for is a requirement on the implementation, not a
description of it, and is not modelled. -/
def decrement_seats (db : DB) (rowId : String) (x : Int) : DB :=
  { db with
    dates := db.dates.map (fun d =>
      if d.id == rowId then { d with seats_available := d.seats_available - x }
      else d) }

/-- The arguments of `create_booking` (its keyword parameters). -/
structure BookingArgs where
  bus_id : String
  date_id : String
  from_location : String
  to_location : String
  travel_date : String
  passenger_name : String
  passenger_phone : String
  passenger_cnic : String
  student_id : String
  selected_seats : List Nat
  total_amount : Nat
  payment_method : String := "bank_transfer"
deriving Repr, DecidableEq

/-- The `booking_data` dict built inside `create_booking`. -/
def mkBookingData (a : BookingArgs) (uuidHex : String) : Booking :=
  { booking_id := generate_booking_id uuidHex
    bus_id := a.bus_id
    date_id := a.date_id
    from_location := a.from_location
    to_location := a.to_location
    travel_date := a.travel_date
    passenger_name := a.passenger_name
    passenger_phone := a.passenger_phone
    passenger_cnic := a.passenger_cnic
    emergency_contact := a.passenger_phone
    student_id := a.student_id
    selected_seats := a.selected_seats
    total_amount := a.total_amount
    payment_method := a.payment_method
    payment_status := "pending"
    booking_status := "pending" }

/-- `create_booking`: inserts the booking row and, only when the insert
returned data, issues the `decrement_seats` RPC for `len(selected_seats)`
and returns the row; otherwise returns `None`.  `insertOk` models whether
the insert returns data and `decrementOk` whether the RPC call succeeds:
the source wraps neither call in `try`, so a failing RPC raises out of the
function after the row was already inserted, which is the `Except.error`
result here (the inserted row stays, nothing is compensated). -/
def create_booking (db : DB) (a : BookingArgs) (uuidHex : String)
    (insertOk decrementOk : Bool) : Except String (Option Booking) × DB :=
  let bk := mkBookingData a uuidHex
  if insertOk then
    let db1 := { db with bookings := db.bookings ++ [bk] }
    if decrementOk then
      (Except.ok (some bk),
        decrement_seats db1 a.date_id (a.selected_seats.length : Int))
    else
      (Except.error "decrement_seats failed", db1)
  else
    (Except.ok none, db)

/-- `get_booking_by_phone`: bookings for a phone, most recent (`created_at`
descending) first; inserts append, so reversal gives that order. -/
def get_booking_by_phone (db : DB) (phone : String) : List Booking :=
  (db.bookings.filter (fun b => b.passenger_phone == phone)).reverse

/-! ## admin_handler.py: delete_booking -/

/-- `delete_booking` (admin_handler.py): fetch the booking (`.single()`
succeeds exactly when one row matches — any exception is caught and turned
into a failure result), delete it, and when `date_id` is truthy and the
seat count positive restore the seats by calling `decrement_seats` with the
negated count.  Returns the success flag together with the new store. -/
def delete_booking (db : DB) (bookingId : String) : Bool × DB :=
  match db.bookings.filter (fun b => b.booking_id == bookingId) with
  | [b] =>
    let db1 := { db with
      bookings := db.bookings.filter (fun x => !(x.booking_id == bookingId)) }
    let db2 :=
      if b.date_id != "" && decide (0 < b.selected_seats.length) then
        decrement_seats db1 b.date_id (-(b.selected_seats.length : Int))
      else db1
    (true, db2)
  | _ => (false, db)

/-- `update_booking_status` (admin_handler.py) restricted to the
`booking_status` update path: sets the status of every row with the given
`booking_id`; succeeds when some row matched.  It never touches the seat
counter. -/
def update_booking_status (db : DB) (bookingId status : String) : Bool × DB :=
  let db1 := { db with
    bookings := db.bookings.map (fun b =>
      if b.booking_id == bookingId then { b with booking_status := status }
      else b) }
  (db.bookings.any (fun b => b.booking_id == bookingId), db1)

/-! ## session_manager.py: the per-user session store

Wall-clock instants are integers measured in minutes; the only arithmetic
the source performs on them is the subtraction compared against the
30-minute `timedelta`. -/

abbrev Phone := String

/-- A draft value stored under a key of the `booking_data` dict.  The flow
stores strings, integers and the selected-seat list. -/
inductive Val where
  | str (s : String)
  | nat (n : Nat)
  | seats (l : List Nat)
deriving Repr, DecidableEq

/-! The `ConversationState` string tags. -/

namespace ConversationState

def IDLE : String := "idle"

def AWAITING_ROUTE : String := "awaiting_route"

def AWAITING_DATE : String := "awaiting_date"

def AWAITING_NAME : String := "awaiting_name"

def AWAITING_REG_NUMBER : String := "awaiting_reg_number"

def AWAITING_PHONE : String := "awaiting_phone"

def AWAITING_SEAT : String := "awaiting_seat"

def AWAITING_PAYMENT_CONFIRMATION : String := "awaiting_payment_confirmation"

def AWAITING_BOOKING_PHONE : String := "awaiting_booking_phone"

def FAQ_QUESTION : String := "faq_question"

def ADMIN_EDITING : String := "admin_editing"

end ConversationState

/-- One user session: conversation state, accumulated booking draft, and the
last-activity timestamp. -/
structure Session where
  state : String
  booking_data : List (String × Val)
  last_activity : Int
deriving Repr, DecidableEq

/-- The in-memory `user_sessions` map. -/
abbrev Store := Phone → Option Session

/-- Point update of the session map (`user_sessions[phone] = ...`). -/
def setStore (st : Store) (phone : Phone) (s : Session) : Store :=
  fun p => if p = phone then some s else st p

def SESSION_EXPIRY_MINUTES : Int := 30

/-- `create_new_session`: fresh idle session stamped with the current time. -/
def create_new_session (now : Int) : Session :=
  { state := ConversationState.IDLE, booking_data := [], last_activity := now }

/-- `get_session`: keep the stored session unless `now - last_activity`
exceeds 30 minutes, in which case replace it by a fresh one; synthesize a
fresh one when absent; then stamp `last_activity := now`, store and return. -/
def get_session (store : Store) (phone : Phone) (now : Int) : Session × Store :=
  let s :=
    match store phone with
    | some session =>
      if now - session.last_activity > SESSION_EXPIRY_MINUTES then
        create_new_session now
      else session
    | none => create_new_session now
  let s2 := { s with last_activity := now }
  (s2, setStore store phone s2)

/-- `set_state`. -/
def set_state (store : Store) (phone : Phone) (now : Int) (st : String) : Store :=
  let (s, store1) := get_session store phone now
  setStore store1 phone { s with state := st, last_activity := now }

/-- `get_state` (also returns the store as mutated by the embedded
`get_session` call). -/
def get_state (store : Store) (phone : Phone) (now : Int) : String × Store :=
  let (s, store1) := get_session store phone now
  (s.state, store1)

/-- Dict update `session["booking_data"][key] = value`: replace in place,
else append (Python dicts keep insertion order). -/
def setKey (l : List (String × Val)) (k : String) (v : Val) : List (String × Val) :=
  if l.any (fun kv => kv.1 == k) then
    l.map (fun kv => if kv.1 == k then (k, v) else kv)
  else l ++ [(k, v)]

/-- Dict read `booking_data.get(key)` (`none` models Python's `None`). -/
def lookupKey (l : List (String × Val)) (k : String) : Option Val :=
  (l.find? (fun kv => kv.1 == k)).map (fun kv => kv.2)

/-- Draft extraction with Python's `.get(key)` / `.get(key, default)`
defaults.  Python passes dict values untyped; the embedding extracts the
typed payload, defaulting when the key is absent — the flows proved below
always populate the fields with values of the right shape first. -/
def valStr : Option Val → String
  | some (.str s) => s
  | _ => ""

def valNat : Option Val → Nat
  | some (.nat n) => n
  | _ => 0

def valSeats : Option Val → List Nat
  | some (.seats l) => l
  | _ => []

/-- `update_booking_data`. -/
def update_booking_data (store : Store) (phone : Phone) (now : Int)
    (k : String) (v : Val) : Store :=
  let (s, store1) := get_session store phone now
  setStore store1 phone
    { s with booking_data := setKey s.booking_data k v, last_activity := now }

/-- `get_booking_data` (also returns the store as mutated by `get_session`). -/
def get_booking_data (store : Store) (phone : Phone) (now : Int) :
    List (String × Val) × Store :=
  let (s, store1) := get_session store phone now
  (s.booking_data, store1)

/-- `clear_booking_data`: empty the draft and return to idle (the
`last_activity` stamp is the one `get_session` just wrote). -/
def clear_booking_data (store : Store) (phone : Phone) (now : Int) : Store :=
  let (s, store1) := get_session store phone now
  setStore store1 phone
    { s with booking_data := [], state := ConversationState.IDLE }

/-- `reset_session`: unconditional replacement by a fresh idle session. -/
def reset_session (store : Store) (phone : Phone) (now : Int) : Store :=
  setStore store phone (create_new_session now)

/-! ## Python string primitives

Lean's built-in `String.trim`/`toLower`/`replace`/`toNat?` are implemented
with substring machinery or well-founded recursion that the kernel does not
reduce, so the handful of Python string operations the handlers use are
re-implemented structurally over the character list. -/

/-- `str.lower()` (the inputs at hand are ASCII). -/
def pyLower (s : String) : String := ⟨s.data.map Char.toLower⟩

/-- `str.strip()`: drop whitespace from both ends. -/
def pyStrip (s : String) : String :=
  ⟨((s.data.dropWhile Char.isWhitespace).reverse.dropWhile
      Char.isWhitespace).reverse⟩

/-- `phone_number.replace("-", "").replace(" ", "")`: removing every
occurrence of a single character is filtering it out. -/
def pyCleanPhone (s : String) : String :=
  ⟨s.data.filter (fun c => !(c == '-') && !(c == ' '))⟩

def digitsToNat (l : List Char) : Nat :=
  l.foldl (fun acc c => acc * 10 + (c.toNat - '0'.toNat)) 0

/-- `int(text.strip())`, defined on unsigned decimal numerals and `none`
otherwise.  (Python's `int` also accepts signed numerals; a negative seat
number can never pass the later availability check, so both implementations
re-prompt on such input.) -/
def pyIntNat? (s : String) : Option Nat :=
  let t := (pyStrip s).data
  if !t.isEmpty && t.all Char.isDigit then some (digitsToNat t) else none

/-- `re.match(r"^202\d{4}$", reg_number)` as a total match on the stripped
input (`\d` restricted to ASCII digits, which is all the format admits). -/
def matchRegNumber (s : String) : Bool :=
  s.data.length == 7 && s.data.take 3 == ['2', '0', '2']
    && (s.data.drop 3).all Char.isDigit

/-- `re.match(r"^03\d{9}$", phone)` as a total match. -/
def matchPhone (s : String) : Bool :=
  s.data.length == 11 && s.data.take 2 == ['0', '3']
    && (s.data.drop 2).all Char.isDigit

/-- Fuel-driven core of `str.replace(pat, repl)` for a non-empty pattern. -/
def replaceFuel (pat repl : List Char) : Nat → List Char → List Char
  | 0, l => l
  | _ + 1, [] => []
  | fuel + 1, c :: rest =>
    if pat.isPrefixOf (c :: rest) then
      repl ++ replaceFuel pat repl fuel ((c :: rest).drop pat.length)
    else c :: replaceFuel pat repl fuel rest

/-- `str.replace(pat, repl)` (the call sites all use non-empty patterns). -/
def pyReplace (s pat repl : String) : String :=
  ⟨replaceFuel pat.data repl.data s.data.length s.data⟩

/-- `s.startswith(pat)`. -/
def pyStartsWith (s pat : String) : Bool := pat.data.isPrefixOf s.data

/-- `s.endswith(pat)`. -/
def pyEndsWith (s pat : String) : Bool := pat.data.isSuffixOf s.data

/-- `str.split()` (whitespace runs as separators, no empty words). -/
def splitWordsAux : List Char → List Char → List String
  | [], acc => if acc.isEmpty then [] else [⟨acc.reverse⟩]
  | c :: rest, acc =>
    if c.isWhitespace then
      if acc.isEmpty then splitWordsAux rest []
      else ⟨acc.reverse⟩ :: splitWordsAux rest []
    else splitWordsAux rest (c :: acc)

def pySplitWs (s : String) : List String := splitWordsAux s.data []

/-! ## config.py / admin_handler.py: admin recognition -/

/-- The runtime configuration the handlers read: the parsed
`admin_phone_numbers` list and `date.today().isoformat()`. -/
structure Config where
  admins : List String
  today : String
deriving Repr, DecidableEq

/-- `lstrip(chars)` for a one-character set: drop the leading run. -/
def pyLstripChar (s : String) (c : Char) : String :=
  ⟨s.data.dropWhile (fun x => x == c)⟩

/-- `is_admin` (admin_handler.py): normalize by stripping leading `+` then
leading `0` runs and compare against each configured admin number, also
accepting suffix matches in either direction. -/
def is_admin (cfg : Config) (phone : String) : Bool :=
  let normalized := pyLstripChar (pyLstripChar phone '+') '0'
  cfg.admins.any (fun ap =>
    let an := pyLstripChar (pyLstripChar ap '+') '0'
    normalized == an || pyEndsWith normalized an || pyEndsWith an normalized)

/-- The four admin-panel trigger phrases checked by `handle_text_message`
and `handle_admin_command`. -/
def adminKeywords : List String := ["admin", "/admin", "dashboard", "admin panel"]

/-- The global reset keywords of `handle_text_message` ("Common commands
that work from any state"). -/
def resetKeywords : List String := ["hi", "hello", "hey", "start", "menu", "home"]

/-- An input that is none of the globally intercepted keywords (the admin
triggers and the reset keywords checked before per-state handling). -/
def notGlobalKeyword (t : String) : Prop :=
  pyStrip (pyLower t) ∉ adminKeywords ∧ pyStrip (pyLower t) ∉ resetKeywords

/-- Whether `handle_admin_command` (admin_handler.py) recognizes the text
and returns a (truthy) response: the admin-panel triggers, or one of the
`fare`/`dates`/`return`/`luggage`/`location` commands with enough
`split(maxsplit=2)` arguments.  Its effects touch only the business-settings
and knowledge-base tables, which are outside the booking core modelled here;
every recognized command returns a non-empty response string. -/
def adminCommandResponds (text : String) : Bool :=
  let tl := pyStrip (pyLower text)
  if tl ∈ adminKeywords then true
  else
    let words := pySplitWs (pyStrip text)
    let command := pyLower (words.headD "")
    let nargs := min (words.length - 1) 2
    (command == "fare" && decide (2 ≤ nargs))
      || (command == "dates" && decide (1 ≤ nargs))
      || (command == "return" && decide (2 ≤ nargs))
      || (command == "luggage" && decide (2 ≤ nargs))
      || (command == "location" && decide (2 ≤ nargs))

/-! ## The notifier events (whatsapp_client.py calls) -/

/-- One outbound notifier call.  Static bodies are verbatim; the large
dynamic presentation templates (trip summary, booking summary, bus status,
bookings list) are carried as the data they render, and Python's
thousands-separator number formatting is elided as presentation. -/
inductive Msg where
  | text (dst body : String)
  | buttons (dst body : String) (btns : List (String × String))
  | listMsg (dst body buttonText : String) (rows : List (String × String × String))
  | welcome (dst : String)
  | mainMenu (dst : String)
  | destinationSelection (dst : String)
  | statusMenu (dst : String)
  | faq (dst : String)
  | paymentInfo (dst bookingId : String) (amount : Nat)
  | screenshotLink (dst bookingId : String)
  | adminMenu (dst : String)
  | adminResponse (dst body : String)
  | tripSummary (dst : String) (d : AvailableDate) (bus : Bus)
  | bookingSummary (dst : String) (draft : List (String × Val)) (total : Nat)
  | busStatus (dst : String)
  | bookingsList (dst lookedUpPhone : String) (bookings : List Booking)
deriving Repr, DecidableEq

/-- The whole mutable world the handlers touch: the session map and the
backing store. -/
structure Sys where
  store : Store
  db : DB

/-! ## message_handler.py: the conversation state machine -/

/-- `handle_name_input`. -/
def handle_name_input (sys : Sys) (now : Int) (phone name : String) :
    Sys × List Msg :=
  if name.length < 3 then
    (sys, [Msg.text phone "❌ Please enter a valid name (at least 3 characters)."])
  else
    let st1 := update_booking_data sys.store phone now "passenger_name" (.str name)
    let st2 := set_state st1 phone now ConversationState.AWAITING_REG_NUMBER
    ({ sys with store := st2 },
      [Msg.text phone ("👤 *Name:* " ++ name ++
        "\n\n📋 *Please enter your Registration Number:*\n\nFormat: 202XXXX (e.g., 2021234)")])

/-- `handle_reg_number_input`. -/
def handle_reg_number_input (sys : Sys) (now : Int) (phone regNumber : String) :
    Sys × List Msg :=
  if !matchRegNumber regNumber then
    (sys, [Msg.text phone
      "❌ Invalid registration number format.\n\nPlease enter in format: 202XXXX (e.g., 2021234)"])
  else
    let st1 := update_booking_data sys.store phone now "student_id" (.str regNumber)
    let st2 := set_state st1 phone now ConversationState.AWAITING_PHONE
    ({ sys with store := st2 },
      [Msg.text phone ("🎓 *Reg Number:* " ++ regNumber ++
        "\n\n📱 *Please enter your phone number:*\n\nFormat: 03XXXXXXXXX (e.g., 03001234567)")])

/-- `show_available_seats`. -/
def show_available_seats (sys : Sys) (now : Int) (phone : String) :
    Sys × List Msg :=
  let (bd, st1) := get_booking_data sys.store phone now
  let dateId := valStr (lookupKey bd "date_id")
  let availableSeats := get_available_seats sys.db dateId
  if availableSeats.isEmpty then
    let st2 := clear_booking_data st1 phone now
    ({ sys with store := st2 },
      [Msg.text phone
        "😔 Sorry, all seats are booked for this date.\n\nPlease select a different date.",
       Msg.mainMenu phone])
  else
    let seatsDisplay :=
      String.intercalate ", " ((availableSeats.take 20).map (fun s => toString s))
    let st2 := set_state st1 phone now ConversationState.AWAITING_SEAT
    ({ sys with store := st2 },
      [Msg.text phone ("📱 *Phone:* " ++ valStr (lookupKey bd "passenger_phone") ++
        "\n\n💺 *Available Seats:*\n" ++ seatsDisplay ++
        "\n\nPlease type the seat number you want to book:")])

/-- `handle_phone_input`. -/
def handle_phone_input (sys : Sys) (now : Int) (phone phoneNumber : String) :
    Sys × List Msg :=
  let cleanPhone := pyCleanPhone phoneNumber
  if !matchPhone cleanPhone then
    (sys, [Msg.text phone
      "❌ Invalid phone number format.\n\nPlease enter in format: 03XXXXXXXXX (e.g., 03001234567)"])
  else
    let st1 := update_booking_data sys.store phone now "passenger_phone" (.str cleanPhone)
    show_available_seats { sys with store := st1 } now phone

/-- `show_booking_confirmation`. -/
def show_booking_confirmation (sys : Sys) (now : Int) (phone : String) :
    Sys × List Msg :=
  let (bd, st1) := get_booking_data sys.store phone now
  let price := valNat (lookupKey bd "price")
  let seats := valSeats (lookupKey bd "selected_seats")
  let totalAmount := price * seats.length
  let st2 := set_state st1 phone now ConversationState.AWAITING_PAYMENT_CONFIRMATION
  let st3 := update_booking_data st2 phone now "total_amount" (.nat totalAmount)
  ({ sys with store := st3 },
    [Msg.bookingSummary phone bd totalAmount,
     Msg.buttons phone "Please confirm your booking to proceed to payment."
       [("confirm_booking", "✅ Confirm & Pay"), ("main_menu", "❌ Cancel")]])

/-- `handle_seat_input`. -/
def handle_seat_input (sys : Sys) (now : Int) (phone seatText : String) :
    Sys × List Msg :=
  match pyIntNat? seatText with
  | none => (sys, [Msg.text phone "❌ Please enter a valid seat number."])
  | some seatNumber =>
    let (bd, st1) := get_booking_data sys.store phone now
    let dateId := valStr (lookupKey bd "date_id")
    let availableSeats := get_available_seats sys.db dateId
    if seatNumber ∈ availableSeats then
      let st2 := update_booking_data st1 phone now "selected_seats" (.seats [seatNumber])
      show_booking_confirmation { sys with store := st2 } now phone
    else
      ({ sys with store := st1 },
        [Msg.text phone ("❌ Seat " ++ toString seatNumber ++
          " is not available.\n\nPlease select from the available seats.")])

/-- `handle_seat_selection` (list-reply variant). -/
def handle_seat_selection (sys : Sys) (now : Int) (phone : String)
    (seatNumber : Nat) : Sys × List Msg :=
  let (bd, st1) := get_booking_data sys.store phone now
  let dateId := valStr (lookupKey bd "date_id")
  let availableSeats := get_available_seats sys.db dateId
  if seatNumber ∈ availableSeats then
    let st2 := update_booking_data st1 phone now "selected_seats" (.seats [seatNumber])
    show_booking_confirmation { sys with store := st2 } now phone
  else
    ({ sys with store := st1 },
      [Msg.text phone ("❌ Seat " ++ toString seatNumber ++
        " is no longer available.\n\nPlease select another seat.")])

/-- `handle_date_selection`. -/
def handle_date_selection (sys : Sys) (now : Int) (phone dateId : String) :
    Sys × List Msg :=
  match get_date_info sys.db dateId with
  | none =>
    (sys, [Msg.text phone "❌ Invalid selection. Please try again.", Msg.mainMenu phone])
  | some (d, bus) =>
    let st1 := update_booking_data sys.store phone now "date_id" (.str dateId)
    let st2 := update_booking_data st1 phone now "travel_date" (.str d.date)
    let st3 := update_booking_data st2 phone now "bus_id" (.str bus.id)
    let st4 := update_booking_data st3 phone now "bus_name" (.str bus.name)
    let st5 := update_booking_data st4 phone now "price" (.nat bus.price)
    let st6 := set_state st5 phone now ConversationState.AWAITING_NAME
    ({ sys with store := st6 }, [Msg.tripSummary phone d bus])

/-! ## message_handler.py: route/date listing, status and lookup flows -/

/-- Insertion of a Boolean-comparator insertion sort (models the repository
`order("date")` clause; ISO dates compare lexicographically). -/
def insertSorted (le : α → α → Bool) (x : α) : List α → List α
  | [] => [x]
  | y :: ys => if le x y then x :: y :: ys else y :: insertSorted le x ys

def sortByBool (le : α → α → Bool) : List α → List α
  | [] => []
  | x :: xs => insertSorted le x (sortByBool le xs)

/-- Lexicographic `≤` on the character lists (ISO-date and SQL text order). -/
def strLeBool : List Char → List Char → Bool
  | [], _ => true
  | _ :: _, [] => false
  | c :: cs, c2 :: cs2 =>
    if c == c2 then strLeBool cs cs2 else decide (c.toNat < c2.toNat)

/-- `get_available_dates_by_route` (database.py): dates on the route from
today on with a positive seat counter, joined with their bus, ordered by
date. -/
def get_available_dates_by_route (cfg : Config) (db : DB) (route : String) :
    List (AvailableDate × Option Bus) :=
  (sortByBool (fun a b => strLeBool a.date.data b.date.data)
      (db.dates.filter (fun d =>
        d.route == route && strLeBool cfg.today.data d.date.data
          && decide (0 < d.seats_available)))).map
    (fun d => (d, get_bus_by_id db d.bus_id))

/-- `show_available_dates`. -/
def show_available_dates (cfg : Config) (sys : Sys) (now : Int)
    (phone route : String) : Sys × List Msg :=
  let dates := get_available_dates_by_route cfg sys.db route
  if dates.isEmpty then
    (sys,
      [Msg.text phone
        "😔 Sorry, no available dates found for this route.\n\nPlease check back later or try a different route.",
       Msg.mainMenu phone])
  else
    let rows := (dates.take 10).map (fun di =>
      ("date_" ++ di.1.id, di.1.date,
        "🚌 " ++ (match di.2 with | some bus => bus.name | none => "Bus") ++
          " | 💺 " ++ toString di.1.seats_available ++ " seats | Rs." ++
          toString (match di.2 with | some bus => bus.price | none => 0)))
    let st1 := set_state sys.store phone now ConversationState.AWAITING_DATE
    ({ sys with store := st1 },
      [Msg.listMsg phone
        ("📅 *Available Dates for " ++ route ++ "*\n\nSelect a date to continue:")
        "Select Date" rows])

/-- `get_all_bus_status` returns one entry per active bus; only its
emptiness steers control flow, the rendered text being presentation. -/
def show_bus_status (sys : Sys) (phone : String) : Sys × List Msg :=
  let buses := sys.db.buses.filter (fun b => b.is_active)
  if buses.isEmpty then
    (sys, [Msg.text phone "No buses available at the moment.", Msg.mainMenu phone])
  else
    (sys, [Msg.busStatus phone,
      Msg.buttons phone "Need anything else?" [("main_menu", "🔙 Main Menu")]])

/-- `handle_booking_phone_lookup`. -/
def handle_booking_phone_lookup (sys : Sys) (now : Int)
    (phone inputPhone : String) : Sys × List Msg :=
  let cleanPhone := pyCleanPhone inputPhone
  if !matchPhone cleanPhone then
    (sys, [Msg.text phone
      "❌ Invalid phone number format.\n\nPlease enter in format: 03XXXXXXXXX"])
  else
    let bookings := get_booking_by_phone sys.db cleanPhone
    if bookings.isEmpty then
      let st1 := set_state sys.store phone now ConversationState.IDLE
      ({ sys with store := st1 },
        [Msg.text phone ("📭 No bookings found for " ++ cleanPhone ++
           ".\n\nMake sure you entered the correct phone number."),
         Msg.mainMenu phone])
    else
      let st1 := set_state sys.store phone now ConversationState.IDLE
      ({ sys with store := st1 },
        [Msg.bookingsList phone cleanPhone bookings,
         Msg.buttons phone "Need anything else?" [("main_menu", "🔙 Main Menu")]])

/-- `handle_image_message`. -/
def handle_image_message (sys : Sys) (phone : String) : Sys × List Msg :=
  (sys,
    [Msg.text phone
      "📸 *Image Received*\n\nThank you for uploading your payment screenshot.\n\nTo link it to your booking, please use the upload link provided after your booking was created.\n\nOur team will verify your payment within 24 hours.",
     Msg.buttons phone "Need anything else?" [("main_menu", "🔙 Main Menu")]])

/-- The keyword arguments `process_booking_confirmation` passes to
`create_booking`, read from the session draft (`student_id` doubles as the
CNIC, per the source comment). -/
def draftArgs (bd : List (String × Val)) : BookingArgs :=
  { bus_id := valStr (lookupKey bd "bus_id")
    date_id := valStr (lookupKey bd "date_id")
    from_location := valStr (lookupKey bd "from_location")
    to_location := valStr (lookupKey bd "to_location")
    travel_date := valStr (lookupKey bd "travel_date")
    passenger_name := valStr (lookupKey bd "passenger_name")
    passenger_phone := valStr (lookupKey bd "passenger_phone")
    passenger_cnic := valStr (lookupKey bd "student_id")
    student_id := valStr (lookupKey bd "student_id")
    selected_seats := valSeats (lookupKey bd "selected_seats")
    total_amount := valNat (lookupKey bd "total_amount")
    payment_method := "bank_transfer" }

/-- `process_booking_confirmation`: read the draft, create the booking and on
success show the payment information and clear the draft.  A `None` from
`create_booking` keeps the session untouched; a raised RPC error propagates
to the webhook handler (which logs it), so nothing further happens. -/
def process_booking_confirmation (sys : Sys) (now : Int) (phone : String)
    (uuidHex : String) (insertOk decrementOk : Bool) : Sys × List Msg :=
  let (bd, st1) := get_booking_data sys.store phone now
  let a : BookingArgs := draftArgs bd
  match create_booking sys.db a uuidHex insertOk decrementOk with
  | (Except.ok (some booking), db1) =>
    let st2 := clear_booking_data st1 phone now
    ({ store := st2, db := db1 },
      [Msg.text phone ("🎉 *Booking Created Successfully!*\n\nYour booking ID: *" ++
         booking.booking_id ++ "*\n\nPlease save this ID for your records."),
       Msg.paymentInfo phone booking.booking_id (valNat (lookupKey bd "total_amount"))])
  | (Except.ok none, db1) =>
    ({ store := st1, db := db1 },
      [Msg.text phone
        "❌ Sorry, there was an error creating your booking.\n\nPlease try again or contact support.",
       Msg.mainMenu phone])
  | (Except.error _, db1) =>
    ({ store := st1, db := db1 }, [])

/-- `handle_text_message`: admin checks first, then the global reset
keywords, then the per-state dispatch. -/
def handle_text_message (cfg : Config) (sys : Sys) (now : Int)
    (phone text : String) : Sys × List Msg :=
  let textLower := pyStrip (pyLower text)
  let (state, st1) := get_state sys.store phone now
  let sys1 := { sys with store := st1 }
  if textLower ∈ adminKeywords then
    if is_admin cfg phone then (sys1, [Msg.adminMenu phone])
    else
      (sys1, [Msg.text phone "❌ You are not authorized to access the admin panel.",
        Msg.mainMenu phone])
  else if (is_admin cfg phone && state == ConversationState.IDLE)
      && adminCommandResponds text then
    (sys1, [Msg.adminResponse phone text])
  else if textLower ∈ resetKeywords then
    ({ sys1 with store := reset_session st1 phone now }, [Msg.welcome phone])
  else if state == ConversationState.AWAITING_NAME then
    handle_name_input sys1 now phone text
  else if state == ConversationState.AWAITING_REG_NUMBER then
    handle_reg_number_input sys1 now phone text
  else if state == ConversationState.AWAITING_PHONE then
    handle_phone_input sys1 now phone text
  else if state == ConversationState.AWAITING_SEAT then
    handle_seat_input sys1 now phone text
  else if state == ConversationState.AWAITING_BOOKING_PHONE then
    handle_booking_phone_lookup sys1 now phone text
  else (sys1, [Msg.welcome phone])

/-- `handle_button_reply`. -/
def handle_button_reply (cfg : Config) (sys : Sys) (now : Int)
    (phone buttonId : String) : Sys × List Msg :=
  if buttonId == "admin_menu" then
    if is_admin cfg phone then (sys, [Msg.adminMenu phone])
    else (sys, [Msg.mainMenu phone])
  else if buttonId == "book_seat" then
    ({ sys with store := set_state sys.store phone now ConversationState.AWAITING_ROUTE },
      [Msg.destinationSelection phone])
  else if buttonId == "status" then (sys, [Msg.statusMenu phone])
  else if buttonId == "faq" then (sys, [Msg.faq phone])
  else if buttonId == "main_menu" then
    ({ sys with store := reset_session sys.store phone now }, [Msg.mainMenu phone])
  else if buttonId == "route_giki_multan" then
    let st1 := update_booking_data sys.store phone now "route" (.str "GIKI-Multan")
    let st2 := update_booking_data st1 phone now "from_location" (.str "GIKI")
    let st3 := update_booking_data st2 phone now "to_location" (.str "Multan")
    show_available_dates cfg { sys with store := st3 } now phone "GIKI-Multan"
  else if buttonId == "route_multan_giki" then
    let st1 := update_booking_data sys.store phone now "route" (.str "Multan-GIKI")
    let st2 := update_booking_data st1 phone now "from_location" (.str "Multan")
    let st3 := update_booking_data st2 phone now "to_location" (.str "GIKI")
    show_available_dates cfg { sys with store := st3 } now phone "Multan-GIKI"
  else if buttonId == "bus_status" then show_bus_status sys phone
  else if buttonId == "your_booking" then
    ({ sys with store := set_state sys.store phone now ConversationState.AWAITING_BOOKING_PHONE },
      [Msg.text phone
        "📱 Please enter your phone number to find your bookings:\n\nFormat: 03XXXXXXXXX"])
  else if pyStartsWith buttonId "upload_screenshot_" then
    (sys, [Msg.screenshotLink phone (pyReplace buttonId "upload_screenshot_" "")])
  else if pyStartsWith buttonId "date_" then
    handle_date_selection sys now phone (pyReplace buttonId "date_" "")
  else (sys, [])

/-- `handle_list_reply`.  An `admin_…` selection runs `handle_admin_button`,
whose effects are reads of settings tables outside the modelled core; a
`seat_…` row whose suffix `int()` cannot parse raises out to the webhook
handler. -/
def handle_list_reply (cfg : Config) (sys : Sys) (now : Int)
    (phone listId : String) : Sys × List Msg :=
  if pyStartsWith listId "admin_" then
    if is_admin cfg phone then (sys, [Msg.adminResponse phone listId])
    else (sys, [Msg.text phone "❌ Unauthorized access.", Msg.mainMenu phone])
  else if pyStartsWith listId "date_" then
    handle_date_selection sys now phone (pyReplace listId "date_" "")
  else if pyStartsWith listId "seat_" then
    match pyIntNat? (pyReplace listId "seat_" "") with
    | some n => handle_seat_selection sys now phone n
    | none => (sys, [])
  else (sys, [])

/-! ## main.py: the webhook dispatch -/

/-- One inbound webhook event for a sender. -/
inductive InMsg where
  | text (body : String)
  | button (id : String)
  | listReply (id : String)
  | image
deriving Repr, DecidableEq

/-- `handle_incoming_message`: text bodies are stripped on extraction. -/
def handle_incoming_message (cfg : Config) (sys : Sys) (now : Int)
    (phone : String) (m : InMsg) : Sys × List Msg :=
  match m with
  | .text body => handle_text_message cfg sys now phone (pyStrip body)
  | .button id => handle_button_reply cfg sys now phone id
  | .listReply id => handle_list_reply cfg sys now phone id
  | .image => handle_image_message sys phone

/-- The per-message body of `webhook_handler` (main.py): a
`confirm_booking` button pressed in `AWAITING_PAYMENT_CONFIRMATION` runs
`process_booking_confirmation` directly; everything else goes through
`handle_incoming_message`. -/
def webhook_message (cfg : Config) (sys : Sys) (now : Int) (phone : String)
    (m : InMsg) (uuidHex : String) (insertOk decrementOk : Bool) :
    Sys × List Msg :=
  match m with
  | .button id =>
    if id == "confirm_booking" then
      let (state, st1) := get_state sys.store phone now
      if state == ConversationState.AWAITING_PAYMENT_CONFIRMATION then
        process_booking_confirmation { sys with store := st1 } now phone
          uuidHex insertOk decrementOk
      else handle_incoming_message cfg { sys with store := st1 } now phone m
    else handle_incoming_message cfg sys now phone m
  | _ => handle_incoming_message cfg sys now phone m

/-! ## Character sets for booking-identifier reasoning -/

/-- The characters `uuid4().hex` can produce. -/
def lowerHexChars : List Char := "0123456789abcdef".data

/-- Uppercase hexadecimal characters. -/
def upperHexChars : List Char := "0123456789ABCDEF".data

/-! ## Concrete data for witnesses and counterexamples -/

def wBus : Bus :=
  { id := "b1", name := "Daewoo", price := 3000, total_seats := 4,
    is_active := true, departure_time := "08:00", arrival_time := "14:00" }

def wDate : AvailableDate :=
  { id := "d1", route := "GIKI-Multan", date := "2026-02-01", bus_id := "b1",
    seats_available := 2 }

def wBookingA : Booking :=
  { booking_id := "SFG-AAAA1111", bus_id := "b1", date_id := "d1",
    from_location := "GIKI", to_location := "Multan",
    travel_date := "2026-02-01", passenger_name := "Ali Khan",
    passenger_phone := "03001234567", passenger_cnic := "2021234",
    emergency_contact := "03001234567", student_id := "2021234",
    selected_seats := [2], total_amount := 3000,
    payment_method := "bank_transfer", payment_status := "pending",
    booking_status := "pending" }

def wBookingCancelled : Booking :=
  { wBookingA with
    booking_id := "SFG-BBBB2222"
    selected_seats := [3]
    booking_status := "cancelled" }

def wDB : DB :=
  { buses := [wBus], dates := [wDate],
    bookings := [wBookingA, wBookingCancelled] }

def wHex : String := "0123456789abcdef0123456789abcdef"

def wArgs : BookingArgs :=
  { bus_id := "b1", date_id := "d1", from_location := "GIKI",
    to_location := "Multan", travel_date := "2026-02-01",
    passenger_name := "Sara Ahmed", passenger_phone := "03007654321",
    passenger_cnic := "2025678", student_id := "2025678",
    selected_seats := [1], total_amount := 3000 }

/-- A trip with a single seat, still free: the C2 race scenario. -/
def cBus : Bus :=
  { id := "b2", name := "Coaster", price := 3000, total_seats := 1,
    is_active := true, departure_time := "08:00", arrival_time := "14:00" }

def cDate : AvailableDate :=
  { id := "d2", route := "GIKI-Multan", date := "2026-02-01", bus_id := "b2",
    seats_available := 1 }

def cDB : DB := { buses := [cBus], dates := [cDate], bookings := [] }

def cHexA : String := "aaaaaaaaaaaaaaaaaaaaaaaaaaaaaaaa"

def cHexB : String := "bbbbbbbbbbbbbbbbbbbbbbbbbbbbbbbb"

/-- The draft a user holds at `AWAITING_PAYMENT_CONFIRMATION` after
selecting seat 1 of trip `d2` (fields in the order the flow stores them). -/
def cDraft (nm reg ph : String) : List (String × Val) :=
  [("route", .str "GIKI-Multan"), ("from_location", .str "GIKI"),
   ("to_location", .str "Multan"), ("date_id", .str "d2"),
   ("travel_date", .str "2026-02-01"), ("bus_id", .str "b2"),
   ("bus_name", .str "Coaster"), ("price", .nat 3000),
   ("passenger_name", .str nm), ("student_id", .str reg),
   ("passenger_phone", .str ph), ("selected_seats", .seats [1]),
   ("total_amount", .nat 3000)]

def cSessA : Session :=
  { state := ConversationState.AWAITING_PAYMENT_CONFIRMATION,
    booking_data := cDraft "Ali Khan" "2021234" "03001234567",
    last_activity := 0 }

def cSessB : Session :=
  { state := ConversationState.AWAITING_PAYMENT_CONFIRMATION,
    booking_data := cDraft "Sara Ahmed" "2025678" "03007654321",
    last_activity := 0 }

def cStore : Store := fun p =>
  if p = "userA" then some cSessA
  else if p = "userB" then some cSessB
  else none

def cSys : Sys := { store := cStore, db := cDB }

def cCfg : Config := { admins := [], today := "2026-01-01" }

/-- A mid-flow session awaiting the registration number. -/
def rSess : Session :=
  { state := ConversationState.AWAITING_REG_NUMBER,
    booking_data :=
      [("route", .str "GIKI-Multan"), ("from_location", .str "GIKI"),
       ("to_location", .str "Multan"), ("date_id", .str "d1"),
       ("travel_date", .str "2026-02-01"), ("bus_id", .str "b1"),
       ("bus_name", .str "Daewoo"), ("price", .nat 3000),
       ("passenger_name", .str "Ali Khan")],
    last_activity := 10 }

def rStore : Store := fun p => if p = "userC" then some rSess else none

def rSys : Sys := { store := rStore, db := wDB }

/-- A brand-new idle user against the `wDB` store. -/
def iStore : Store := fun p =>
  if p = "userD" then some (create_new_session 0) else none

def iSys : Sys := { store := iStore, db := wDB }

/-- Bool test for a payment-instructions notifier event. -/
def isPaymentInfo : Msg → Bool
  | .paymentInfo _ _ _ => true
  | _ => false

/-! ## Basic lemmas about the seat-inventory computation -/

lemma mem_foldl_union (l : List Booking) (acc : Finset ℕ) (x : ℕ) :
    x ∈ l.foldl (fun a b => a ∪ b.selected_seats.toFinset) acc ↔
      x ∈ acc ∨ ∃ b ∈ l, x ∈ b.selected_seats := by
  induction l generalizing acc with
  | nil => simp
  | cons hd tl ih =>
    simp only [List.foldl_cons, ih, Finset.mem_union, List.mem_toFinset,
      List.mem_cons]
    constructor
    · rintro (⟨h | h⟩ | ⟨b, hb, hx⟩)
      · exact Or.inl h
      · exact Or.inr ⟨hd, Or.inl rfl, h⟩
      · exact Or.inr ⟨b, Or.inr hb, hx⟩
    · rintro (h | ⟨b, rfl | hb, hx⟩)
      · exact Or.inl (Or.inl h)
      · exact Or.inl (Or.inr hx)
      · exact Or.inr ⟨b, hb, hx⟩

lemma mem_bookedSeats (db : DB) (dateId : String) (x : ℕ) :
    x ∈ bookedSeats db dateId ↔
      ∃ b ∈ db.bookings, b.date_id = dateId ∧ b.booking_status ≠ "cancelled" ∧
        x ∈ b.selected_seats := by
  unfold bookedSeats
  rw [mem_foldl_union]
  simp only [Finset.not_mem_empty, false_or, List.mem_filter, Bool.and_eq_true,
    beq_iff_eq, bne_iff_ne, ne_eq]
  constructor
  · rintro ⟨b, ⟨hb, h1, h2⟩, hx⟩
    exact ⟨b, hb, h1, h2, hx⟩
  · rintro ⟨b, hb, h1, h2, hx⟩
    exact ⟨b, ⟨hb, h1, h2⟩, hx⟩

lemma mem_get_available_seats (db : DB) (dateId : String) (d : AvailableDate)
    (bus : Bus) (h : get_date_info db dateId = some (d, bus)) (x : ℕ) :
    x ∈ get_available_seats db dateId ↔
      x ∈ Finset.Icc 1 bus.total_seats ∧ x ∉ bookedSeats db dateId := by
  unfold get_available_seats
  rw [h]
  simp [List.mem_filter, List.mem_range'_1, Finset.mem_Icc, Nat.lt_succ_iff,
    Nat.add_comm 1 bus.total_seats, Nat.lt_add_one_iff]

/-- C1: for a trip whose row and bus exist, the seat-availability query
returns exactly `{1..total_seats}` minus the seats of non-cancelled bookings
on that trip; the returned free set is disjoint from the booked set, and —
whenever the booked seats lie inside `{1..total_seats}` (the §3 invariant) —
their union is all of `{1..total_seats}`. -/
theorem available_seats_partition (db : DB) (dateId : String)
    (d : AvailableDate) (bus : Bus)
    (h : get_date_info db dateId = some (d, bus)) :
    (get_available_seats db dateId).toFinset
        = Finset.Icc 1 bus.total_seats \ bookedSeats db dateId
      ∧ Disjoint (get_available_seats db dateId).toFinset (bookedSeats db dateId)
      ∧ (bookedSeats db dateId ⊆ Finset.Icc 1 bus.total_seats →
          (get_available_seats db dateId).toFinset ∪ bookedSeats db dateId
            = Finset.Icc 1 bus.total_seats) := by
  have he : (get_available_seats db dateId).toFinset
      = Finset.Icc 1 bus.total_seats \ bookedSeats db dateId := by
    ext x
    rw [List.mem_toFinset, mem_get_available_seats db dateId d bus h,
      Finset.mem_sdiff]
  refine ⟨he, ?_, ?_⟩
  · rw [he]; exact Finset.sdiff_disjoint
  · intro hsub
    rw [he]
    exact Finset.sdiff_union_of_subset hsub

/-- C1 witness: a concrete store with one pending booking (seat 2) and one
cancelled booking (seat 3) on a 4-seat trip. -/
theorem available_seats_partition_witness :
    get_date_info wDB "d1" = some (wDate, wBus)
      ∧ ((get_available_seats wDB "d1").toFinset
            = Finset.Icc 1 wBus.total_seats \ bookedSeats wDB "d1"
          ∧ Disjoint (get_available_seats wDB "d1").toFinset (bookedSeats wDB "d1")
          ∧ (bookedSeats wDB "d1" ⊆ Finset.Icc 1 wBus.total_seats →
              (get_available_seats wDB "d1").toFinset ∪ bookedSeats wDB "d1"
                = Finset.Icc 1 wBus.total_seats)) :=
  ⟨by decide, available_seats_partition wDB "d1" wDate wBus (by decide)⟩

/-! ## Booking-identifier lemmas -/

lemma toUpper_mem_upperHex {c : Char} (hc : c ∈ lowerHexChars) :
    c.toUpper ∈ upperHexChars := by
  have hall : ∀ x ∈ lowerHexChars, x.toUpper ∈ upperHexChars := by decide
  exact hall c hc

lemma generate_booking_id_data (uuidHex : String) :
    (generate_booking_id uuidHex).data
      = ['S', 'F', 'G', '-'] ++ (uuidHex.data.take 8).map Char.toUpper := rfl

/-- C10: with a well-formed `uuid4().hex` value (at least eight lowercase
hexadecimal characters — the standard library guarantees 32), every booking
returned by `create_booking` is pending on both statuses, copies the
passenger phone into `emergency_contact`, and carries an id of the shape
`SFG-` followed by exactly eight uppercase hexadecimal characters. -/
theorem create_booking_pending_fields_and_id (db : DB) (a : BookingArgs)
    (uuidHex : String) (h8 : 8 ≤ uuidHex.data.length)
    (hhex : ∀ c ∈ uuidHex.data, c ∈ lowerHexChars) :
    ∃ bk db1,
      create_booking db a uuidHex true true = (Except.ok (some bk), db1)
        ∧ bk.payment_status = "pending"
        ∧ bk.booking_status = "pending"
        ∧ bk.emergency_contact = a.passenger_phone
        ∧ bk.booking_id.data.take 4 = ['S', 'F', 'G', '-']
        ∧ bk.booking_id.data.length = 12
        ∧ ∀ c ∈ bk.booking_id.data.drop 4, c ∈ upperHexChars := by
  refine ⟨mkBookingData a uuidHex, _, rfl, rfl, rfl, rfl, ?_, ?_, ?_⟩
  · rw [show (mkBookingData a uuidHex).booking_id = generate_booking_id uuidHex
        from rfl, generate_booking_id_data]
    rw [show (4 : ℕ) = (['S', 'F', 'G', '-'] : List Char).length from rfl]
    exact List.take_left _ _
  · rw [show (mkBookingData a uuidHex).booking_id = generate_booking_id uuidHex
        from rfl, generate_booking_id_data]
    simp [List.length_take, Nat.min_eq_left h8]
    exact h8
  · rw [show (mkBookingData a uuidHex).booking_id = generate_booking_id uuidHex
        from rfl, generate_booking_id_data]
    rw [show (4 : ℕ) = (['S', 'F', 'G', '-'] : List Char).length from rfl,
      List.drop_left]
    intro c hc
    rcases List.mem_map.mp hc with ⟨c0, hc0, rfl⟩
    exact toUpper_mem_upperHex (hhex c0 (List.take_subset _ _ hc0))

/-- C10 witness: the concrete uuid hex `wHex`. -/
theorem create_booking_pending_fields_and_id_witness :
    (8 ≤ wHex.data.length ∧ ∀ c ∈ wHex.data, c ∈ lowerHexChars)
      ∧ ∃ bk db1,
        create_booking wDB wArgs wHex true true = (Except.ok (some bk), db1)
          ∧ bk.payment_status = "pending"
          ∧ bk.booking_status = "pending"
          ∧ bk.emergency_contact = wArgs.passenger_phone
          ∧ bk.booking_id.data.take 4 = ['S', 'F', 'G', '-']
          ∧ bk.booking_id.data.length = 12
          ∧ ∀ c ∈ bk.booking_id.data.drop 4, c ∈ upperHexChars :=
  ⟨⟨by decide, by decide⟩,
    create_booking_pending_fields_and_id wDB wArgs wHex (by decide) (by decide)⟩

/-- C3: `create_booking` persists the row first and then decrements the
counter — but when the decrement RPC fails after a successful insert, the
exception simply propagates: the just-inserted booking is NOT deleted and
the counter stays untouched, leaving a phantom booking (no compensating
logic exists in the source).  The success conjuncts document the
insert-then-decrement order; the failure conjuncts exhibit the phantom. -/
theorem create_booking_decrement_failure_keeps_phantom :
    ((create_booking wDB wArgs wHex true true).2.bookings
        = wDB.bookings ++ [mkBookingData wArgs wHex]
      ∧ get_date_row (create_booking wDB wArgs wHex true true).2 "d1"
          = some { wDate with seats_available := 1 })
    ∧ ((create_booking wDB wArgs wHex true false).1
          = Except.error "decrement_seats failed"
      ∧ (create_booking wDB wArgs wHex true false).2.bookings
          = wDB.bookings ++ [mkBookingData wArgs wHex]
      ∧ get_date_row (create_booking wDB wArgs wHex true false).2 "d1"
          = some wDate) := by
  refine ⟨⟨rfl, by decide⟩, rfl, rfl, by decide⟩

/-- C2: the single remaining seat of trip `d2` is free when both users run
their availability check, and the confirm path (`webhook_handler` →
`process_booking_confirmation` → `create_booking`) never re-checks
availability: two users who both reached `AWAITING_PAYMENT_CONFIRMATION`
holding seat 1 both get a successful booking with payment instructions, the
store ends with two non-cancelled bookings of seat 1, and the counter is
driven to `-1` — never "exactly one success". -/
theorem concurrent_confirmations_double_book_last_seat :
    (1 ∈ get_available_seats cDB "d2")
    ∧ (let r1 := webhook_message cCfg cSys 0 "userA"
          (.button "confirm_booking") cHexA true true
       let r2 := webhook_message cCfg r1.1 0 "userB"
          (.button "confirm_booking") cHexB true true
       (r1.2.any isPaymentInfo ∧ r2.2.any isPaymentInfo)
        ∧ (r2.1.db.bookings.filter (fun b =>
              b.booking_status != "cancelled" && b.selected_seats.contains 1)).length = 2
        ∧ get_date_row r2.1.db "d2" = some { cDate with seats_available := -1 }) := by
  exact ⟨by decide, ⟨by decide, by decide⟩, by decide, by decide⟩


/-! ## Lemmas for booking deletion -/

lemma find?_map_decrement (l : List AvailableDate) (rid : String) (x : Int) :
    (l.map (fun d =>
        if d.id == rid then { d with seats_available := d.seats_available - x }
        else d)).find? (fun d => d.id == rid)
      = (l.find? (fun d => d.id == rid)).map
          (fun d => { d with seats_available := d.seats_available - x }) := by
  rw [List.find?_map]
  have hpf : ((fun d => d.id == rid) ∘ fun d : AvailableDate =>
      if d.id == rid then { d with seats_available := d.seats_available - x }
      else d) = fun d => d.id == rid := by
    funext d
    show ((if d.id == rid then
        ({ d with seats_available := d.seats_available - x } : AvailableDate)
      else d).id == rid) = (d.id == rid)
    split <;> rfl
  rw [hpf]
  cases hf : l.find? (fun d => d.id == rid) with
  | none => rfl
  | some d =>
    have hd : (d.id == rid) = true := by simpa using List.find?_some hf
    have he : d.id = rid := by simpa using hd
    simp [he]

lemma get_date_row_decrement_seats (db : DB) (rid : String) (x : Int) :
    get_date_row (decrement_seats db rid x) rid
      = (get_date_row db rid).map
          (fun d => { d with seats_available := d.seats_available - x }) := by
  unfold get_date_row decrement_seats
  exact find?_map_decrement db.dates rid x

lemma filter_eq_of_filter_not (l : List Booking) (bid : String) :
    (l.filter (fun x => !(x.booking_id == bid))).filter
        (fun b => b.booking_id == bid) = [] := by
  induction l with
  | nil => rfl
  | cons hd tl ih =>
    cases h : hd.booking_id == bid with
    | true => simp [List.filter, h, ih]
    | false => simp [List.filter, h, ih]

/-- C4: when exactly one stored booking carries `bid`, the first
`delete_booking` call succeeds and adds `len(selected_seats)` back onto the
trip's counter (when the booking has a trip reference and seats), and a
second `delete_booking` call for the same id fails without touching the
store at all — the counter is incremented at most once. -/
theorem delete_booking_increments_at_most_once (db : DB) (bid : String)
    (b : Booking)
    (huniq : db.bookings.filter (fun x => x.booking_id == bid) = [b]) :
    (delete_booking db bid).1 = true
      ∧ delete_booking (delete_booking db bid).2 bid
          = (false, (delete_booking db bid).2)
      ∧ (b.date_id ≠ "" → b.selected_seats.length ≠ 0 →
          get_date_row (delete_booking db bid).2 b.date_id
            = (get_date_row db b.date_id).map (fun d =>
                { d with seats_available :=
                    d.seats_available + (b.selected_seats.length : Int) })) := by
  have hdel : delete_booking db bid
      = (true,
        if b.date_id != "" && decide (0 < b.selected_seats.length) then
          decrement_seats
            { db with bookings :=
                db.bookings.filter (fun x => !(x.booking_id == bid)) }
            b.date_id (-(b.selected_seats.length : Int))
        else
          { db with bookings :=
              db.bookings.filter (fun x => !(x.booking_id == bid)) }) := by
    unfold delete_booking
    rw [huniq]
  have hbookings : (delete_booking db bid).2.bookings
      = db.bookings.filter (fun x => !(x.booking_id == bid)) := by
    rw [hdel]
    split <;> rfl
  refine ⟨by rw [hdel], ?_, ?_⟩
  · set X := (delete_booking db bid).2 with hX
    have h2 : X.bookings.filter (fun b => b.booking_id == bid) = [] := by
      rw [hbookings]
      exact filter_eq_of_filter_not db.bookings bid
    show delete_booking X bid = (false, X)
    unfold delete_booking
    rw [h2]
  · intro hdate hseats
    have hcond : (b.date_id != "" && decide (0 < b.selected_seats.length)) = true := by
      simp [bne_iff_ne, hdate, Nat.pos_of_ne_zero hseats]
    rw [hdel]
    simp only [hcond, if_true]
    rw [get_date_row_decrement_seats]
    have harg : get_date_row
        { db with bookings :=
            db.bookings.filter (fun x => !(x.booking_id == bid)) }
        b.date_id = get_date_row db b.date_id := rfl
    rw [harg]
    simp [Int.sub_neg]

/-- C4 witness: deleting booking `SFG-AAAA1111` from the concrete store,
then deleting it again. -/
theorem delete_booking_increments_at_most_once_witness :
    wDB.bookings.filter (fun x => x.booking_id == "SFG-AAAA1111") = [wBookingA]
      ∧ ((delete_booking wDB "SFG-AAAA1111").1 = true
        ∧ delete_booking (delete_booking wDB "SFG-AAAA1111").2 "SFG-AAAA1111"
            = (false, (delete_booking wDB "SFG-AAAA1111").2)
        ∧ (wBookingA.date_id ≠ "" → wBookingA.selected_seats.length ≠ 0 →
            get_date_row (delete_booking wDB "SFG-AAAA1111").2 wBookingA.date_id
              = (get_date_row wDB wBookingA.date_id).map (fun d =>
                  { d with seats_available :=
                      d.seats_available + (wBookingA.selected_seats.length : Int) }))) :=
  ⟨by decide,
    delete_booking_increments_at_most_once wDB "SFG-AAAA1111" wBookingA (by decide)⟩

/-! ## Session-store lemmas -/

lemma setStore_same (st : Store) (phone : Phone) (s : Session) :
    setStore st phone s phone = some s := by
  simp [setStore]

lemma setStore_setStore (st : Store) (p : Phone) (s1 s2 : Session) :
    setStore (setStore st p s1) p s2 = setStore st p s2 := by
  funext q
  by_cases h : q = p <;> simp [setStore, h]

lemma session_update_self (s : Session) (now : Int)
    (h : s.last_activity = now) : { s with last_activity := now } = s := by
  cases s
  simp only at h
  subst h
  rfl

lemma get_session_keep (store : Store) (phone : Phone) (now : Int)
    (sess : Session) (hs : store phone = some sess)
    (h : now - sess.last_activity ≤ SESSION_EXPIRY_MINUTES) :
    get_session store phone now
      = ({ sess with last_activity := now },
         setStore store phone { sess with last_activity := now }) := by
  have hc : ¬(now - sess.last_activity > SESSION_EXPIRY_MINUTES) := not_lt.mpr h
  unfold get_session
  rw [hs]
  simp [hc]

lemma get_session_expired (store : Store) (phone : Phone) (now : Int)
    (sess : Session) (hs : store phone = some sess)
    (h : now - sess.last_activity > SESSION_EXPIRY_MINUTES) :
    get_session store phone now
      = (create_new_session now, setStore store phone (create_new_session now)) := by
  unfold get_session
  rw [hs]
  simp [h, create_new_session]

lemma get_session_absent (store : Store) (phone : Phone) (now : Int)
    (hs : store phone = none) :
    get_session store phone now
      = (create_new_session now, setStore store phone (create_new_session now)) := by
  unfold get_session
  rw [hs]
  rfl

/-- C5: session retrieval always stamps `last_activity := now`; a session no
older than 30 minutes is returned as it was stored (state and draft intact),
while one older than 30 minutes — for example 31 minutes — is replaced before
returning, and the result is exactly what a brand-new user would get (state
IDLE, empty draft): the stale session is indistinguishable from a fresh one. -/
theorem get_session_expiry_semantics (store : Store) (phone : Phone)
    (now : Int) (sess : Session) (hs : store phone = some sess) :
    (get_session store phone now).1.last_activity = now
      ∧ (now - sess.last_activity ≤ SESSION_EXPIRY_MINUTES →
          (get_session store phone now).1 = { sess with last_activity := now }
            ∧ (get_session store phone now).2 phone
                = some { sess with last_activity := now })
      ∧ (now - sess.last_activity > SESSION_EXPIRY_MINUTES →
          (get_session store phone now).1
              = { state := ConversationState.IDLE, booking_data := [],
                  last_activity := now }
            ∧ (get_session store phone now).1
                = (get_session (fun _ => none) phone now).1
            ∧ (get_session store phone now).2 phone
                = some (create_new_session now)) := by
  refine ⟨?_, ?_, ?_⟩
  · unfold get_session
    rw [hs]
  · intro h
    rw [get_session_keep store phone now sess hs h]
    exact ⟨rfl, setStore_same _ _ _⟩
  · intro h
    rw [get_session_expired store phone now sess hs h]
    exact ⟨rfl, rfl, setStore_same _ _ _⟩

/-- C5 witness: a mid-flow session whose `last_activity` lies 31 minutes in
the past is replaced by a brand-new idle session, while the same session
accessed within 30 minutes survives. -/
theorem get_session_expiry_semantics_witness :
    (cStore "userA" = some cSessA)
      ∧ ((get_session cStore "userA" 31).1.last_activity = 31
        ∧ (31 - cSessA.last_activity ≤ SESSION_EXPIRY_MINUTES →
            (get_session cStore "userA" 31).1 = { cSessA with last_activity := 31 }
              ∧ (get_session cStore "userA" 31).2 "userA"
                  = some { cSessA with last_activity := 31 })
        ∧ (31 - cSessA.last_activity > SESSION_EXPIRY_MINUTES →
            (get_session cStore "userA" 31).1
                = { state := ConversationState.IDLE, booking_data := [],
                    last_activity := 31 }
              ∧ (get_session cStore "userA" 31).1
                  = (get_session (fun _ => none) "userA" 31).1
              ∧ (get_session cStore "userA" 31).2 "userA"
                  = some (create_new_session 31)))
      ∧ 31 - cSessA.last_activity > SESSION_EXPIRY_MINUTES :=
  ⟨by decide, get_session_expiry_semantics cStore "userA" 31 cSessA (by decide),
    by decide⟩

/-- C9: in every conversation state (indeed for every session-store content),
the global reset inputs are recognized before any per-state handling: the
text keyword `menu` and the `main_menu` button both replace the user's
session by a fresh idle one (state IDLE, empty draft), so every state has an
input that returns the user to IDLE. -/
theorem reset_keywords_reach_idle_from_every_state (cfg : Config) (sys : Sys)
    (now : Int) (phone : Phone) :
    ((handle_text_message cfg sys now phone "menu").1.store phone
        = some (create_new_session now)
      ∧ (handle_text_message cfg sys now phone "menu").2 = [Msg.welcome phone])
    ∧ ((handle_button_reply cfg sys now phone "main_menu").1.store phone
        = some (create_new_session now)
      ∧ (handle_button_reply cfg sys now phone "main_menu").2
          = [Msg.mainMenu phone]) := by
  have hstrip : pyStrip (pyLower "menu") = "menu" := by decide
  have hadm : "menu" ∉ adminKeywords := by decide
  have hresp : adminCommandResponds "menu" = false := by decide
  have hreset : "menu" ∈ resetKeywords := by decide
  constructor
  · unfold handle_text_message
    simp only [hstrip, hadm, hresp, Bool.and_false, Bool.false_eq_true,
      if_false, hreset, if_true, ite_false, ite_true]
    exact ⟨setStore_same _ _ _, trivial⟩
  · unfold handle_button_reply
    simp only [show ("main_menu" == "admin_menu") = false from rfl,
      show ("main_menu" == "book_seat") = false from rfl,
      show ("main_menu" == "status") = false from rfl,
      show ("main_menu" == "faq") = false from rfl,
      show ("main_menu" == "main_menu") = true from rfl,
      Bool.false_eq_true, if_false, if_true, ite_false, ite_true]
    exact ⟨setStore_same _ _ _, trivial⟩

lemma get_state_of_fresh (store : Store) (phone : Phone) (now : Int)
    (sess : Session) (hs : store phone = some sess)
    (hfresh : now - sess.last_activity ≤ SESSION_EXPIRY_MINUTES) :
    get_state store phone now
      = (sess.state, setStore store phone { sess with last_activity := now }) := by
  unfold get_state
  rw [get_session_keep store phone now sess hs hfresh]

lemma get_session_setStore_now (st : Store) (phone : Phone) (now : Int)
    (s : Session) (h : s.last_activity = now) :
    get_session (setStore st phone s) phone now = (s, setStore st phone s) := by
  rw [get_session_keep (setStore st phone s) phone now s (setStore_same st phone s)
      (by rw [h]; simp [SESSION_EXPIRY_MINUTES])]
  rw [session_update_self s now h, setStore_setStore]

lemma get_booking_data_of_fresh (store : Store) (phone : Phone) (now : Int)
    (sess : Session) (hs : store phone = some sess)
    (hfresh : now - sess.last_activity ≤ SESSION_EXPIRY_MINUTES) :
    get_booking_data store phone now
      = (sess.booking_data,
         setStore store phone { sess with last_activity := now }) := by
  unfold get_booking_data
  rw [get_session_keep store phone now sess hs hfresh]

/-- C8: every validation failure — name shorter than 3 characters, malformed
registration number, malformed phone (after stripping spaces and dashes), or
a seat outside the currently available set — re-prompts with the
corresponding format message while leaving the session state, the
accumulated draft and the backing store unchanged (only `last_activity` is
refreshed by the dispatch's session read). -/
theorem validation_failures_leave_state_and_draft_unchanged
    (cfg : Config) (sys : Sys) (now : Int) (phone : Phone) (sess : Session)
    (hs : sys.store phone = some sess)
    (hfresh : now - sess.last_activity ≤ SESSION_EXPIRY_MINUTES) :
    (∀ nm, sess.state = ConversationState.AWAITING_NAME →
      notGlobalKeyword nm → nm.length < 3 →
      (handle_text_message cfg sys now phone nm).1.store phone
          = some { sess with last_activity := now }
        ∧ (handle_text_message cfg sys now phone nm).1.db = sys.db
        ∧ (handle_text_message cfg sys now phone nm).2
            = [Msg.text phone "❌ Please enter a valid name (at least 3 characters)."])
    ∧ (∀ reg, sess.state = ConversationState.AWAITING_REG_NUMBER →
      notGlobalKeyword reg → matchRegNumber reg = false →
      (handle_text_message cfg sys now phone reg).1.store phone
          = some { sess with last_activity := now }
        ∧ (handle_text_message cfg sys now phone reg).1.db = sys.db
        ∧ (handle_text_message cfg sys now phone reg).2
            = [Msg.text phone "❌ Invalid registration number format.\n\nPlease enter in format: 202XXXX (e.g., 2021234)"])
    ∧ (∀ ph, sess.state = ConversationState.AWAITING_PHONE →
      notGlobalKeyword ph → matchPhone (pyCleanPhone ph) = false →
      (handle_text_message cfg sys now phone ph).1.store phone
          = some { sess with last_activity := now }
        ∧ (handle_text_message cfg sys now phone ph).1.db = sys.db
        ∧ (handle_text_message cfg sys now phone ph).2
            = [Msg.text phone "❌ Invalid phone number format.\n\nPlease enter in format: 03XXXXXXXXX (e.g., 03001234567)"])
    ∧ (∀ st n, sess.state = ConversationState.AWAITING_SEAT →
      notGlobalKeyword st → pyIntNat? st = some n →
      n ∉ get_available_seats sys.db (valStr (lookupKey sess.booking_data "date_id")) →
      (handle_text_message cfg sys now phone st).1.store phone
          = some { sess with last_activity := now }
        ∧ (handle_text_message cfg sys now phone st).1.db = sys.db
        ∧ (handle_text_message cfg sys now phone st).2
            = [Msg.text phone ("❌ Seat " ++ toString n ++
                " is not available.\n\nPlease select from the available seats.")]) := by
  refine ⟨?_, ?_, ?_, ?_⟩
  · intro nm hstate hkw hlen
    unfold handle_text_message
    rw [get_state_of_fresh sys.store phone now sess hs hfresh, hstate]
    simp only [hkw.1, hkw.2, ConversationState.AWAITING_NAME,
      ConversationState.IDLE, if_false, ite_false, ite_true, if_true,
      show (("awaiting_name" : String) == "idle") = false from rfl,
      Bool.false_and, Bool.and_false, Bool.false_eq_true,
      show (("awaiting_name" : String) == "awaiting_name") = true from rfl]
    unfold handle_name_input
    simp only [hlen, if_pos, ite_true, if_true]
    refine ⟨setStore_same _ _ _, ?_, ?_⟩ <;> trivial
  · intro reg hstate hkw hreg
    unfold handle_text_message
    rw [get_state_of_fresh sys.store phone now sess hs hfresh, hstate]
    simp only [hkw.1, hkw.2, ConversationState.AWAITING_REG_NUMBER,
      ConversationState.IDLE, ConversationState.AWAITING_NAME, if_false,
      ite_false, ite_true, if_true,
      show (("awaiting_reg_number" : String) == "idle") = false from rfl,
      show (("awaiting_reg_number" : String) == "awaiting_name") = false from rfl,
      show (("awaiting_reg_number" : String) == "awaiting_reg_number") = true from rfl,
      Bool.false_and, Bool.and_false, Bool.false_eq_true]
    unfold handle_reg_number_input
    simp only [hreg, Bool.not_false, ite_true, if_true]
    refine ⟨setStore_same _ _ _, ?_, ?_⟩ <;> trivial
  · intro ph hstate hkw hph
    unfold handle_text_message
    rw [get_state_of_fresh sys.store phone now sess hs hfresh, hstate]
    simp only [hkw.1, hkw.2, ConversationState.AWAITING_PHONE,
      ConversationState.IDLE, ConversationState.AWAITING_NAME,
      ConversationState.AWAITING_REG_NUMBER, if_false, ite_false, ite_true,
      if_true,
      show (("awaiting_phone" : String) == "idle") = false from rfl,
      show (("awaiting_phone" : String) == "awaiting_name") = false from rfl,
      show (("awaiting_phone" : String) == "awaiting_reg_number") = false from rfl,
      show (("awaiting_phone" : String) == "awaiting_phone") = true from rfl,
      Bool.false_and, Bool.and_false, Bool.false_eq_true]
    unfold handle_phone_input
    simp only [hph, Bool.not_false, ite_true, if_true]
    refine ⟨setStore_same _ _ _, ?_, ?_⟩ <;> trivial
  · intro st n hstate hkw hparse hnavail
    unfold handle_text_message
    rw [get_state_of_fresh sys.store phone now sess hs hfresh, hstate]
    simp only [hkw.1, hkw.2, ConversationState.AWAITING_SEAT,
      ConversationState.IDLE, ConversationState.AWAITING_NAME,
      ConversationState.AWAITING_REG_NUMBER, ConversationState.AWAITING_PHONE,
      if_false, ite_false, ite_true, if_true,
      show (("awaiting_seat" : String) == "idle") = false from rfl,
      show (("awaiting_seat" : String) == "awaiting_name") = false from rfl,
      show (("awaiting_seat" : String) == "awaiting_reg_number") = false from rfl,
      show (("awaiting_seat" : String) == "awaiting_phone") = false from rfl,
      show (("awaiting_seat" : String) == "awaiting_seat") = true from rfl,
      Bool.false_and, Bool.and_false, Bool.false_eq_true]
    unfold handle_seat_input
    rw [hparse]
    rw [get_booking_data_of_fresh _ phone now _ (setStore_same _ _ _)
        (by norm_num [SESSION_EXPIRY_MINUTES])]
    simp only [session_update_self]
    rw [setStore_setStore]
    simp only [if_neg hnavail]
    refine ⟨setStore_same _ _ _, ?_, ?_⟩ <;> trivial

/-- C8 witness: the invalid registration number `abc123` entered at
`AWAITING_REG_NUMBER` re-issues the format prompt and leaves state, draft
and store unchanged. -/
theorem validation_failures_leave_state_and_draft_unchanged_witness :
    (rSys.store "userC" = some rSess
      ∧ (10 : Int) - rSess.last_activity ≤ SESSION_EXPIRY_MINUTES
      ∧ rSess.state = ConversationState.AWAITING_REG_NUMBER
      ∧ notGlobalKeyword "abc123"
      ∧ matchRegNumber "abc123" = false)
    ∧ ((handle_text_message cCfg rSys 10 "userC" "abc123").1.store "userC"
          = some { rSess with last_activity := 10 }
      ∧ (handle_text_message cCfg rSys 10 "userC" "abc123").1.db = rSys.db
      ∧ (handle_text_message cCfg rSys 10 "userC" "abc123").2
          = [Msg.text "userC"
              "❌ Invalid registration number format.\n\nPlease enter in format: 202XXXX (e.g., 2021234)"]) :=
  ⟨⟨by decide, by decide, by decide, ⟨by decide, by decide⟩, by decide⟩,
    (validation_failures_leave_state_and_draft_unchanged cCfg rSys 10 "userC"
        rSess (by decide) (by decide)).2.1 "abc123" (by decide)
      ⟨by decide, by decide⟩ (by decide)⟩

lemma get_booking_data_setStore_now (st : Store) (phone : Phone) (now : Int)
    (s : Session) (h : s.last_activity = now) :
    get_booking_data (setStore st phone s) phone now
      = (s.booking_data, setStore st phone s) := by
  unfold get_booking_data
  rw [get_session_setStore_now st phone now s h]

lemma update_booking_data_setStore_now (st : Store) (phone : Phone) (now : Int)
    (s : Session) (h : s.last_activity = now) (k : String) (v : Val) :
    update_booking_data (setStore st phone s) phone now k v
      = setStore st phone
          { s with booking_data := setKey s.booking_data k v,
                   last_activity := now } := by
  unfold update_booking_data
  rw [get_session_setStore_now st phone now s h]
  exact setStore_setStore st phone s _

lemma update_booking_data_of_fresh (store : Store) (phone : Phone) (now : Int)
    (sess : Session) (hs : store phone = some sess)
    (hfresh : now - sess.last_activity ≤ SESSION_EXPIRY_MINUTES)
    (k : String) (v : Val) :
    update_booking_data store phone now k v
      = setStore store phone
          { sess with booking_data := setKey sess.booking_data k v,
                      last_activity := now } := by
  unfold update_booking_data
  rw [get_session_keep store phone now sess hs hfresh]
  exact setStore_setStore store phone _ _

lemma set_state_setStore_now (st : Store) (phone : Phone) (now : Int)
    (s : Session) (h : s.last_activity = now) (stt : String) :
    set_state (setStore st phone s) phone now stt
      = setStore st phone { s with state := stt, last_activity := now } := by
  unfold set_state
  rw [get_session_setStore_now st phone now s h]
  exact setStore_setStore st phone s _

lemma clear_booking_data_setStore_now (st : Store) (phone : Phone) (now : Int)
    (s : Session) (h : s.last_activity = now) :
    clear_booking_data (setStore st phone s) phone now
      = setStore st phone
          { s with booking_data := [], state := ConversationState.IDLE } := by
  unfold clear_booking_data
  rw [get_session_setStore_now st phone now s h]
  exact setStore_setStore st phone s _

/-- C6: at `AWAITING_PAYMENT_CONFIRMATION`, the confirm button creates the
booking built from the draft, appends it to the store, decrements the trip's
counter by the number of selected seats, emits the payment instructions, and
leaves the session idle with an empty draft; the cancel button (`main_menu`)
resets the session to a fresh idle one without touching the backing store
and without creating any booking. -/
theorem payment_confirmation_confirm_and_cancel (cfg : Config) (sys : Sys)
    (now : Int) (phone : Phone) (sess : Session) (uuidHex : String)
    (hs : sys.store phone = some sess)
    (hfresh : now - sess.last_activity ≤ SESSION_EXPIRY_MINUTES)
    (hstate : sess.state = ConversationState.AWAITING_PAYMENT_CONFIRMATION) :
    (let r := webhook_message cfg sys now phone (.button "confirm_booking")
        uuidHex true true
     r.1.db.bookings
         = sys.db.bookings ++ [mkBookingData (draftArgs sess.booking_data) uuidHex]
       ∧ get_date_row r.1.db (draftArgs sess.booking_data).date_id
           = (get_date_row sys.db (draftArgs sess.booking_data).date_id).map
               (fun dd => { dd with seats_available := dd.seats_available
                   - ((draftArgs sess.booking_data).selected_seats.length : Int) })
       ∧ r.2.any isPaymentInfo = true
       ∧ r.1.store phone
           = some { state := ConversationState.IDLE, booking_data := [],
                    last_activity := now })
    ∧ (let rc := webhook_message cfg sys now phone (.button "main_menu")
        uuidHex true true
       rc.1.store phone = some (create_new_session now)
         ∧ rc.1.db = sys.db
         ∧ rc.2 = [Msg.mainMenu phone]) := by
  constructor
  · unfold webhook_message
    simp only [show ("confirm_booking" == "confirm_booking") = true from rfl,
      if_true, ite_true]
    rw [get_state_of_fresh sys.store phone now sess hs hfresh, hstate]
    simp only [show (ConversationState.AWAITING_PAYMENT_CONFIRMATION
        == ConversationState.AWAITING_PAYMENT_CONFIRMATION) = true from rfl,
      if_true, ite_true]
    unfold process_booking_confirmation
    rw [get_booking_data_setStore_now sys.store phone now _ rfl]
    unfold create_booking
    simp only [if_true, ite_true]
    refine ⟨rfl, ?_, rfl, ?_⟩
    · rw [get_date_row_decrement_seats]
      exact rfl
    · rw [clear_booking_data_setStore_now sys.store phone now _ rfl]
      exact setStore_same _ _ _
  · unfold webhook_message
    simp only [show ("main_menu" == "confirm_booking") = false from rfl,
      Bool.false_eq_true, if_false, ite_false]
    unfold handle_incoming_message handle_button_reply
    simp only [show ("main_menu" == "admin_menu") = false from rfl,
      show ("main_menu" == "book_seat") = false from rfl,
      show ("main_menu" == "status") = false from rfl,
      show ("main_menu" == "faq") = false from rfl,
      show ("main_menu" == "main_menu") = true from rfl,
      Bool.false_eq_true, if_false, if_true, ite_false, ite_true]
    refine ⟨setStore_same _ _ _, ?_, ?_⟩ <;> trivial

/-- C6 witness: user A confirming (and, alternatively, cancelling) the
single-seat draft on trip `d2`. -/
theorem payment_confirmation_confirm_and_cancel_witness :
    (cSys.store "userA" = some cSessA
      ∧ (0 : Int) - cSessA.last_activity ≤ SESSION_EXPIRY_MINUTES
      ∧ cSessA.state = ConversationState.AWAITING_PAYMENT_CONFIRMATION)
    ∧ ((let r := webhook_message cCfg cSys 0 "userA" (.button "confirm_booking")
          cHexA true true
        r.1.db.bookings
            = cSys.db.bookings
                ++ [mkBookingData (draftArgs cSessA.booking_data) cHexA]
          ∧ get_date_row r.1.db (draftArgs cSessA.booking_data).date_id
              = (get_date_row cSys.db (draftArgs cSessA.booking_data).date_id).map
                  (fun dd => { dd with seats_available := dd.seats_available
                      - ((draftArgs cSessA.booking_data).selected_seats.length : Int) })
          ∧ r.2.any isPaymentInfo = true
          ∧ r.1.store "userA"
              = some { state := ConversationState.IDLE, booking_data := [],
                       last_activity := 0 })
      ∧ (let rc := webhook_message cCfg cSys 0 "userA" (.button "main_menu")
          cHexA true true
         rc.1.store "userA" = some (create_new_session 0)
           ∧ rc.1.db = cSys.db
           ∧ rc.2 = [Msg.mainMenu "userA"])) :=
  ⟨⟨by decide, by decide, by decide⟩,
    payment_confirmation_confirm_and_cancel cCfg cSys 0 "userA" cSessA cHexA
      (by decide) (by decide) (by decide)⟩

lemma isEmpty_false_of_ne_nil {α : Type} {l : List α} (h : l ≠ []) :
    l.isEmpty = false := by
  cases l with
  | nil => exact absurd rfl h
  | cons a t => rfl

lemma get_state_setStore_mk (st : Store) (phone : Phone) (now : Int)
    (stt : String) (bd : List (String × Val)) :
    get_state (setStore st phone ⟨stt, bd, now⟩) phone now
      = (stt, setStore st phone ⟨stt, bd, now⟩) := by
  unfold get_state
  rw [get_session_setStore_now st phone now ⟨stt, bd, now⟩ rfl]

lemma get_booking_data_setStore_mk (st : Store) (phone : Phone) (now : Int)
    (stt : String) (bd : List (String × Val)) :
    get_booking_data (setStore st phone ⟨stt, bd, now⟩) phone now
      = (bd, setStore st phone ⟨stt, bd, now⟩) := by
  unfold get_booking_data
  rw [get_session_setStore_now st phone now ⟨stt, bd, now⟩ rfl]

lemma update_booking_data_setStore_mk (st : Store) (phone : Phone) (now : Int)
    (stt : String) (bd : List (String × Val)) (k : String) (v : Val) :
    update_booking_data (setStore st phone ⟨stt, bd, now⟩) phone now k v
      = setStore st phone ⟨stt, setKey bd k v, now⟩ :=
  update_booking_data_setStore_now st phone now ⟨stt, bd, now⟩ rfl k v

lemma set_state_setStore_mk (st : Store) (phone : Phone) (now : Int)
    (stt : String) (bd : List (String × Val)) (stt2 : String) :
    set_state (setStore st phone ⟨stt, bd, now⟩) phone now stt2
      = setStore st phone ⟨stt2, bd, now⟩ :=
  set_state_setStore_now st phone now ⟨stt, bd, now⟩ rfl stt2

lemma lookupKey_setKey_same (l : List (String × Val)) (k : String) (v : Val) :
    lookupKey (setKey l k v) k = some v := by
  unfold setKey lookupKey
  by_cases hany : (l.any fun kv => kv.1 == k) = true
  · simp only [hany, if_true]
    rw [List.find?_map]
    have hpf : ((fun kv : String × Val => kv.1 == k) ∘ fun kv =>
        if kv.1 == k then (k, v) else kv) = fun kv : String × Val => kv.1 == k := by
      funext kv
      show ((if kv.1 == k then (k, v) else kv).1 == k) = (kv.1 == k)
      by_cases h : (kv.1 == k) = true
      · simp [h]
      · have hf : (kv.1 == k) = false := by simpa using h
        simp [hf]
    rw [hpf]
    obtain ⟨kv, hkv⟩ : ∃ kv, l.find? (fun kv => kv.1 == k) = some kv := by
      rw [← Option.isSome_iff_exists, List.find?_isSome]
      simpa using hany
    have hp : kv.1 = k := by simpa using List.find?_some hkv
    rw [hkv]
    simp [hp]
  · have hanyf : (l.any fun kv => kv.1 == k) = false := Bool.eq_false_iff.mpr hany
    simp only [hanyf, Bool.false_eq_true, if_false]
    have hnone : l.find? (fun kv => kv.1 == k) = none := by
      rw [List.find?_eq_none]
      intro x hx hpx
      have hcontra : (l.any fun kv => kv.1 == k) = true :=
        List.any_eq_true.mpr ⟨x, hx, hpx⟩
      rw [hanyf] at hcontra
      exact Bool.false_ne_true hcontra
    rw [List.find?_append, hnone]
    simp

lemma lookupKey_setKey_ne (l : List (String × Val)) (k k2 : String) (v : Val)
    (hne : ¬(k2 = k)) : lookupKey (setKey l k v) k2 = lookupKey l k2 := by
  have hkk2 : (k == k2) = false := by
    simp only [beq_eq_false_iff_ne, ne_eq]
    intro h
    exact hne h.symm
  unfold setKey lookupKey
  by_cases hany : (l.any fun kv => kv.1 == k) = true
  · simp only [hany, if_true]
    rw [List.find?_map]
    have hpf : ((fun kv : String × Val => kv.1 == k2) ∘ fun kv =>
        if kv.1 == k then (k, v) else kv) = fun kv : String × Val => kv.1 == k2 := by
      funext kv
      show ((if kv.1 == k then (k, v) else kv).1 == k2) = (kv.1 == k2)
      by_cases h : (kv.1 == k) = true
      · have hk : kv.1 = k := by simpa using h
        simp [h, hk, hkk2]
      · have hf : (kv.1 == k) = false := by simpa using h
        simp [hf]
    rw [hpf]
    cases hf : l.find? (fun kv => kv.1 == k2) with
    | none => rfl
    | some kv =>
      have h2 : (kv.1 == k2) = true := by simpa using List.find?_some hf
      have h3 : (kv.1 == k) = false := by
        have hk2 : kv.1 = k2 := by simpa using h2
        simp [hk2]
        exact hne
      have h3p : ¬(kv.1 = k) := by simpa using h3
      simp [h3p]
  · have hanyf : (l.any fun kv => kv.1 == k) = false := Bool.eq_false_iff.mpr hany
    simp only [hanyf, Bool.false_eq_true, if_false]
    rw [List.find?_append]
    have hsingle : List.find? (fun kv : String × Val => kv.1 == k2) [(k, v)]
        = none := by
      simp [List.find?_cons, hkk2]
    rw [hsingle]
    cases hf : l.find? (fun kv : String × Val => kv.1 == k2) <;> rfl

/-- C7: from IDLE, the route-selection button, a valid trip selection, a name
of at least 3 characters, a registration number matching `^202\d{4}$`, a
phone matching `^03\d{9}$` after cleaning, and a seat from the current
available set reach `AWAITING_PAYMENT_CONFIRMATION` with draft
`total_amount = price * 1 = price` for the single-seat flow.  (The free-text
inputs are assumed not to be the globally intercepted keywords, which §4.2
makes short-circuit every state.) -/
theorem booking_flow_reaches_payment_confirmation (cfg : Config) (sys : Sys)
    (now : Int) (phone : Phone) (sess : Session)
    (dateId nm reg ph seatText : String) (d : AvailableDate) (bus : Bus)
    (n : Nat)
    (hs : sys.store phone = some sess)
    (hfresh : now - sess.last_activity ≤ SESSION_EXPIRY_MINUTES)
    (hidle : sess.state = ConversationState.IDLE)
    (hdates : get_available_dates_by_route cfg sys.db "GIKI-Multan" ≠ [])
    (hdate : get_date_info sys.db dateId = some (d, bus))
    (hnm : 3 ≤ nm.length) (hnmk : notGlobalKeyword nm)
    (hreg : matchRegNumber reg = true) (hregk : notGlobalKeyword reg)
    (hph : matchPhone (pyCleanPhone ph) = true) (hphk : notGlobalKeyword ph)
    (hseat : pyIntNat? seatText = some n) (hseatk : notGlobalKeyword seatText)
    (hnavail : n ∈ get_available_seats sys.db dateId) :
    ∃ s6,
      (handle_text_message cfg
        (handle_text_message cfg
          (handle_text_message cfg
            (handle_text_message cfg
              (handle_date_selection
                (handle_button_reply cfg sys now phone "route_giki_multan").1
                now phone dateId).1
              now phone nm).1
            now phone reg).1
          now phone ph).1
        now phone seatText).1.store phone = some s6
      ∧ s6.state = ConversationState.AWAITING_PAYMENT_CONFIRMATION
      ∧ lookupKey s6.booking_data "total_amount"
          = some (Val.nat (bus.price * 1))
      ∧ valNat (lookupKey s6.booking_data "total_amount") = bus.price := by
  have h1 : (handle_button_reply cfg sys now phone "route_giki_multan").1
      = { sys with store := (setStore sys.store phone
          ⟨ConversationState.AWAITING_DATE,
            setKey (setKey (setKey sess.booking_data
              "route" (Val.str "GIKI-Multan"))
              "from_location" (Val.str "GIKI"))
              "to_location" (Val.str "Multan"), now⟩) } := by
    unfold handle_button_reply
    simp only [show ("route_giki_multan" == "admin_menu") = false from rfl,
      show ("route_giki_multan" == "book_seat") = false from rfl,
      show ("route_giki_multan" == "status") = false from rfl,
      show ("route_giki_multan" == "faq") = false from rfl,
      show ("route_giki_multan" == "main_menu") = false from rfl,
      show ("route_giki_multan" == "route_giki_multan") = true from rfl,
      Bool.false_eq_true, if_false, if_true, ite_false, ite_true]
    rw [update_booking_data_of_fresh sys.store phone now sess hs hfresh]
    rw [update_booking_data_setStore_mk, update_booking_data_setStore_mk]
    unfold show_available_dates
    simp only [isEmpty_false_of_ne_nil hdates, Bool.false_eq_true, if_false,
      ite_false]
    rw [set_state_setStore_mk]
  have h2 : (handle_date_selection
        { sys with store := (setStore sys.store phone
          ⟨ConversationState.AWAITING_DATE,
            setKey (setKey (setKey sess.booking_data
              "route" (Val.str "GIKI-Multan"))
              "from_location" (Val.str "GIKI"))
              "to_location" (Val.str "Multan"), now⟩) }
        now phone dateId).1
      = { sys with store := (setStore sys.store phone
          ⟨ConversationState.AWAITING_NAME,
            setKey (setKey (setKey (setKey (setKey (setKey (setKey (setKey
              sess.booking_data
              "route" (Val.str "GIKI-Multan"))
              "from_location" (Val.str "GIKI"))
              "to_location" (Val.str "Multan"))
              "date_id" (Val.str dateId))
              "travel_date" (Val.str d.date))
              "bus_id" (Val.str bus.id))
              "bus_name" (Val.str bus.name))
              "price" (Val.nat bus.price), now⟩) } := by
    unfold handle_date_selection
    rw [hdate]
    try dsimp only
    rw [update_booking_data_setStore_mk, update_booking_data_setStore_mk,
      update_booking_data_setStore_mk, update_booking_data_setStore_mk,
      update_booking_data_setStore_mk, set_state_setStore_mk]
  have h3 : (handle_text_message cfg
        { sys with store := (setStore sys.store phone (⟨ConversationState.AWAITING_NAME, setKey (setKey (setKey (setKey (setKey (setKey (setKey (setKey sess.booking_data "route" (Val.str "GIKI-Multan")) "from_location" (Val.str "GIKI")) "to_location" (Val.str "Multan")) "date_id" (Val.str dateId)) "travel_date" (Val.str d.date)) "bus_id" (Val.str bus.id)) "bus_name" (Val.str bus.name)) "price" (Val.nat bus.price), now⟩ : Session)) }
        now phone nm).1
      = { sys with store := (setStore sys.store phone (⟨ConversationState.AWAITING_REG_NUMBER, setKey (setKey (setKey (setKey (setKey (setKey (setKey (setKey (setKey sess.booking_data "route" (Val.str "GIKI-Multan")) "from_location" (Val.str "GIKI")) "to_location" (Val.str "Multan")) "date_id" (Val.str dateId)) "travel_date" (Val.str d.date)) "bus_id" (Val.str bus.id)) "bus_name" (Val.str bus.name)) "price" (Val.nat bus.price)) "passenger_name" (Val.str nm), now⟩ : Session)) } := by
    unfold handle_text_message
    try dsimp only
    rw [get_state_setStore_mk]
    try dsimp only
    simp only [hnmk.1, hnmk.2,
      show (ConversationState.AWAITING_NAME == ConversationState.IDLE) = false from rfl,
      show (ConversationState.AWAITING_NAME == ConversationState.AWAITING_NAME) = true from rfl,
      Bool.false_and, Bool.and_false, Bool.false_eq_true, if_false,
      if_true, ite_false, ite_true]
    unfold handle_name_input
    rw [if_neg (not_lt.mpr hnm)]
    try dsimp only
    rw [update_booking_data_setStore_mk, set_state_setStore_mk]
  have h4 : (handle_text_message cfg
        { sys with store := (setStore sys.store phone (⟨ConversationState.AWAITING_REG_NUMBER, setKey (setKey (setKey (setKey (setKey (setKey (setKey (setKey (setKey sess.booking_data "route" (Val.str "GIKI-Multan")) "from_location" (Val.str "GIKI")) "to_location" (Val.str "Multan")) "date_id" (Val.str dateId)) "travel_date" (Val.str d.date)) "bus_id" (Val.str bus.id)) "bus_name" (Val.str bus.name)) "price" (Val.nat bus.price)) "passenger_name" (Val.str nm), now⟩ : Session)) }
        now phone reg).1
      = { sys with store := (setStore sys.store phone (⟨ConversationState.AWAITING_PHONE, setKey (setKey (setKey (setKey (setKey (setKey (setKey (setKey (setKey (setKey sess.booking_data "route" (Val.str "GIKI-Multan")) "from_location" (Val.str "GIKI")) "to_location" (Val.str "Multan")) "date_id" (Val.str dateId)) "travel_date" (Val.str d.date)) "bus_id" (Val.str bus.id)) "bus_name" (Val.str bus.name)) "price" (Val.nat bus.price)) "passenger_name" (Val.str nm)) "student_id" (Val.str reg), now⟩ : Session)) } := by
    unfold handle_text_message
    try dsimp only
    rw [get_state_setStore_mk]
    try dsimp only
    simp only [hregk.1, hregk.2,
      show (ConversationState.AWAITING_REG_NUMBER == ConversationState.IDLE) = false from rfl,
      show (ConversationState.AWAITING_REG_NUMBER == ConversationState.AWAITING_NAME) = false from rfl,
      show (ConversationState.AWAITING_REG_NUMBER == ConversationState.AWAITING_REG_NUMBER) = true from rfl,
      Bool.false_and, Bool.and_false, Bool.false_eq_true, if_false,
      if_true, ite_false, ite_true]
    unfold handle_reg_number_input
    simp only [hreg, Bool.not_true, Bool.false_eq_true, if_false, ite_false]
    try dsimp only
    rw [update_booking_data_setStore_mk, set_state_setStore_mk]
  have hdid : valStr (lookupKey (setKey (setKey (setKey (setKey (setKey (setKey (setKey (setKey (setKey (setKey (setKey sess.booking_data "route" (Val.str "GIKI-Multan")) "from_location" (Val.str "GIKI")) "to_location" (Val.str "Multan")) "date_id" (Val.str dateId)) "travel_date" (Val.str d.date)) "bus_id" (Val.str bus.id)) "bus_name" (Val.str bus.name)) "price" (Val.nat bus.price)) "passenger_name" (Val.str nm)) "student_id" (Val.str reg)) "passenger_phone" (Val.str (pyCleanPhone ph))) "date_id") = dateId := by
    rw [lookupKey_setKey_ne _ _ _ _ (by decide),
      lookupKey_setKey_ne _ _ _ _ (by decide),
      lookupKey_setKey_ne _ _ _ _ (by decide),
      lookupKey_setKey_ne _ _ _ _ (by decide),
      lookupKey_setKey_ne _ _ _ _ (by decide),
      lookupKey_setKey_ne _ _ _ _ (by decide),
      lookupKey_setKey_ne _ _ _ _ (by decide),
      lookupKey_setKey_same]
    rfl
  have h5 : (handle_text_message cfg
        { sys with store := (setStore sys.store phone (⟨ConversationState.AWAITING_PHONE, setKey (setKey (setKey (setKey (setKey (setKey (setKey (setKey (setKey (setKey sess.booking_data "route" (Val.str "GIKI-Multan")) "from_location" (Val.str "GIKI")) "to_location" (Val.str "Multan")) "date_id" (Val.str dateId)) "travel_date" (Val.str d.date)) "bus_id" (Val.str bus.id)) "bus_name" (Val.str bus.name)) "price" (Val.nat bus.price)) "passenger_name" (Val.str nm)) "student_id" (Val.str reg), now⟩ : Session)) }
        now phone ph).1
      = { sys with store := (setStore sys.store phone (⟨ConversationState.AWAITING_SEAT, setKey (setKey (setKey (setKey (setKey (setKey (setKey (setKey (setKey (setKey (setKey sess.booking_data "route" (Val.str "GIKI-Multan")) "from_location" (Val.str "GIKI")) "to_location" (Val.str "Multan")) "date_id" (Val.str dateId)) "travel_date" (Val.str d.date)) "bus_id" (Val.str bus.id)) "bus_name" (Val.str bus.name)) "price" (Val.nat bus.price)) "passenger_name" (Val.str nm)) "student_id" (Val.str reg)) "passenger_phone" (Val.str (pyCleanPhone ph)), now⟩ : Session)) } := by
    unfold handle_text_message
    try dsimp only
    rw [get_state_setStore_mk]
    try dsimp only
    simp only [hphk.1, hphk.2,
      show (ConversationState.AWAITING_PHONE == ConversationState.IDLE) = false from rfl,
      show (ConversationState.AWAITING_PHONE == ConversationState.AWAITING_NAME) = false from rfl,
      show (ConversationState.AWAITING_PHONE == ConversationState.AWAITING_REG_NUMBER) = false from rfl,
      show (ConversationState.AWAITING_PHONE == ConversationState.AWAITING_PHONE) = true from rfl,
      Bool.false_and, Bool.and_false, Bool.false_eq_true, if_false,
      if_true, ite_false, ite_true]
    unfold handle_phone_input
    simp only [hph, Bool.not_true, Bool.false_eq_true, if_false, ite_false]
    try dsimp only
    rw [update_booking_data_setStore_mk]
    unfold show_available_seats
    try dsimp only
    rw [get_booking_data_setStore_mk]
    try dsimp only
    rw [hdid]
    simp only [isEmpty_false_of_ne_nil (List.ne_nil_of_mem hnavail),
      Bool.false_eq_true, if_false, ite_false]
    rw [set_state_setStore_mk]
  have hprice : valNat (lookupKey (setKey (setKey (setKey (setKey (setKey (setKey (setKey (setKey (setKey (setKey (setKey (setKey sess.booking_data "route" (Val.str "GIKI-Multan")) "from_location" (Val.str "GIKI")) "to_location" (Val.str "Multan")) "date_id" (Val.str dateId)) "travel_date" (Val.str d.date)) "bus_id" (Val.str bus.id)) "bus_name" (Val.str bus.name)) "price" (Val.nat bus.price)) "passenger_name" (Val.str nm)) "student_id" (Val.str reg)) "passenger_phone" (Val.str (pyCleanPhone ph))) "selected_seats" (Val.seats [n])) "price") = bus.price := by
    rw [lookupKey_setKey_ne _ _ _ _ (by decide),
      lookupKey_setKey_ne _ _ _ _ (by decide),
      lookupKey_setKey_ne _ _ _ _ (by decide),
      lookupKey_setKey_ne _ _ _ _ (by decide),
      lookupKey_setKey_same]
    rfl
  have hseatsl : valSeats (lookupKey (setKey (setKey (setKey (setKey (setKey (setKey (setKey (setKey (setKey (setKey (setKey (setKey sess.booking_data "route" (Val.str "GIKI-Multan")) "from_location" (Val.str "GIKI")) "to_location" (Val.str "Multan")) "date_id" (Val.str dateId)) "travel_date" (Val.str d.date)) "bus_id" (Val.str bus.id)) "bus_name" (Val.str bus.name)) "price" (Val.nat bus.price)) "passenger_name" (Val.str nm)) "student_id" (Val.str reg)) "passenger_phone" (Val.str (pyCleanPhone ph))) "selected_seats" (Val.seats [n])) "selected_seats") = [n] := by
    rw [lookupKey_setKey_same]
    rfl
  have h6 : (handle_text_message cfg
        { sys with store := (setStore sys.store phone (⟨ConversationState.AWAITING_SEAT, setKey (setKey (setKey (setKey (setKey (setKey (setKey (setKey (setKey (setKey (setKey sess.booking_data "route" (Val.str "GIKI-Multan")) "from_location" (Val.str "GIKI")) "to_location" (Val.str "Multan")) "date_id" (Val.str dateId)) "travel_date" (Val.str d.date)) "bus_id" (Val.str bus.id)) "bus_name" (Val.str bus.name)) "price" (Val.nat bus.price)) "passenger_name" (Val.str nm)) "student_id" (Val.str reg)) "passenger_phone" (Val.str (pyCleanPhone ph)), now⟩ : Session)) }
        now phone seatText).1
      = { sys with store := (setStore sys.store phone (⟨ConversationState.AWAITING_PAYMENT_CONFIRMATION, setKey (setKey (setKey (setKey (setKey (setKey (setKey (setKey (setKey (setKey (setKey (setKey (setKey sess.booking_data "route" (Val.str "GIKI-Multan")) "from_location" (Val.str "GIKI")) "to_location" (Val.str "Multan")) "date_id" (Val.str dateId)) "travel_date" (Val.str d.date)) "bus_id" (Val.str bus.id)) "bus_name" (Val.str bus.name)) "price" (Val.nat bus.price)) "passenger_name" (Val.str nm)) "student_id" (Val.str reg)) "passenger_phone" (Val.str (pyCleanPhone ph))) "selected_seats" (Val.seats [n])) "total_amount" (Val.nat (bus.price * 1)), now⟩ : Session)) } := by
    unfold handle_text_message
    try dsimp only
    rw [get_state_setStore_mk]
    try dsimp only
    simp only [hseatk.1, hseatk.2,
      show (ConversationState.AWAITING_SEAT == ConversationState.IDLE) = false from rfl,
      show (ConversationState.AWAITING_SEAT == ConversationState.AWAITING_NAME) = false from rfl,
      show (ConversationState.AWAITING_SEAT == ConversationState.AWAITING_REG_NUMBER) = false from rfl,
      show (ConversationState.AWAITING_SEAT == ConversationState.AWAITING_PHONE) = false from rfl,
      show (ConversationState.AWAITING_SEAT == ConversationState.AWAITING_SEAT) = true from rfl,
      Bool.false_and, Bool.and_false, Bool.false_eq_true, if_false,
      if_true, ite_false, ite_true]
    unfold handle_seat_input
    rw [hseat]
    try dsimp only
    rw [get_booking_data_setStore_mk]
    try dsimp only
    rw [hdid]
    rw [if_pos hnavail]
    rw [update_booking_data_setStore_mk]
    unfold show_booking_confirmation
    try dsimp only
    rw [get_booking_data_setStore_mk]
    try dsimp only
    rw [hprice, hseatsl]
    rw [show ([n] : List Nat).length = 1 from rfl]
    rw [set_state_setStore_mk, update_booking_data_setStore_mk]
  rw [h1, h2, h3, h4, h5, h6]
  refine ⟨(⟨ConversationState.AWAITING_PAYMENT_CONFIRMATION, setKey (setKey (setKey (setKey (setKey (setKey (setKey (setKey (setKey (setKey (setKey (setKey (setKey sess.booking_data "route" (Val.str "GIKI-Multan")) "from_location" (Val.str "GIKI")) "to_location" (Val.str "Multan")) "date_id" (Val.str dateId)) "travel_date" (Val.str d.date)) "bus_id" (Val.str bus.id)) "bus_name" (Val.str bus.name)) "price" (Val.nat bus.price)) "passenger_name" (Val.str nm)) "student_id" (Val.str reg)) "passenger_phone" (Val.str (pyCleanPhone ph))) "selected_seats" (Val.seats [n])) "total_amount" (Val.nat (bus.price * 1)), now⟩ : Session), ?_, rfl, ?_, ?_⟩
  · exact setStore_same sys.store phone _
  · rw [lookupKey_setKey_same]
  · rw [lookupKey_setKey_same]
    exact mul_one bus.price

/-- C7 witness: a brand-new idle user books seat 1 on trip `d1` with name
`Ali Khan`, registration `2021234` and phone `03001234567`. -/
theorem booking_flow_reaches_payment_confirmation_witness :
    (iSys.store "userD" = some (create_new_session 0)
      ∧ get_date_info iSys.db "d1" = some (wDate, wBus)
      ∧ get_available_dates_by_route cCfg iSys.db "GIKI-Multan" ≠ []
      ∧ (1 : Nat) ∈ get_available_seats iSys.db "d1"
      ∧ matchRegNumber "2021234" = true
      ∧ matchPhone (pyCleanPhone "03001234567") = true
      ∧ pyIntNat? "1" = some 1)
    ∧ ∃ s6,
      (handle_text_message cCfg
        (handle_text_message cCfg
          (handle_text_message cCfg
            (handle_text_message cCfg
              (handle_date_selection
                (handle_button_reply cCfg iSys 0 "userD" "route_giki_multan").1
                0 "userD" "d1").1
              0 "userD" "Ali Khan").1
            0 "userD" "2021234").1
          0 "userD" "03001234567").1
        0 "userD" "1").1.store "userD" = some s6
      ∧ s6.state = ConversationState.AWAITING_PAYMENT_CONFIRMATION
      ∧ lookupKey s6.booking_data "total_amount"
          = some (Val.nat (wBus.price * 1))
      ∧ valNat (lookupKey s6.booking_data "total_amount") = wBus.price :=
  ⟨⟨by decide, by decide, by decide, by decide, by decide, by decide, by decide⟩,
    booking_flow_reaches_payment_confirmation cCfg iSys 0 "userD"
      (create_new_session 0) "d1" "Ali Khan" "2021234" "03001234567" "1"
      wDate wBus 1 (by decide) (by decide) (by decide) (by decide) (by decide)
      (by decide) ⟨by decide, by decide⟩ (by decide) ⟨by decide, by decide⟩
      (by decide) ⟨by decide, by decide⟩ (by decide) ⟨by decide, by decide⟩
      (by decide)⟩
